import Mathlib

/-!
Hekla: the OpenGL bootstrap program of `src/main.cpp`.

The program is a straight line of GLFW / glad / OpenGL / spdlog calls followed by a
render loop.  It is embedded as explicit state passing over a `World`:

* `World.trace` is the sequence of library calls issued so far, in order;
* `World.out` is the sequence of spdlog lines written so far;
* `World.win` is the state of the (single) GLFW window;
* `World.gl` is the state of the OpenGL context, updated by every `gl*` call according to
  the OpenGL 3.3 core reference for that call;
* `World.drawStates` records, for every `glDrawElements`, the context state it was issued in.

Everything the program cannot decide itself (whether the window can be created, whether glad
resolves the entry points, what the shader compiler answers, which OS events arrive on each
`glfwPollEvents`) is an input, collected in `Env`.
-/

namespace Hekla

/-! ## Constants and enumerations -/

/-- Line 14: `#define GL_LINE 0x1B01` (unused by the program). -/
def GL_LINE : Nat := 0x1B01

/-- Line 19: `const unsigned int SCR_WIDTH = 800;` -/
def SCR_WIDTH : Nat := 800

/-- Line 20: `const unsigned int SCR_HEIGHT = 600;` -/
def SCR_HEIGHT : Nat := 600

/-- Key code of the escape key in `GLFW/glfw3.h`. -/
def GLFW_KEY_ESCAPE : Nat := 256

/-- Size in bytes of a `float` and of an `unsigned int` on the supported platforms. -/
def sizeof_float : Nat := 4

/-- Size in bytes of an `unsigned int`. -/
def sizeof_uint : Nat := 4

/-- A `float` literal of the source, kept as a decimal: every float literal of `main.cpp` has at
most one fractional digit, so the value is `tenths / 10` (`0.5f` is `⟨5⟩`, `-0.5f` is `⟨-5⟩`). -/
structure GLfloat where
  tenths : Int
  deriving DecidableEq, Repr

/-- Key actions reported by GLFW. -/
inductive Action where
  | GLFW_RELEASE
  | GLFW_PRESS
  | GLFW_REPEAT
  deriving DecidableEq, Repr

/-- Window hints set by the program. -/
inductive Hint where
  | GLFW_CONTEXT_VERSION_MAJOR
  | GLFW_CONTEXT_VERSION_MINOR
  | GLFW_OPENGL_PROFILE
  | GLFW_OPENGL_FORWARD_COMPAT
  deriving DecidableEq, Repr

/-- Values given to window hints. -/
inductive HintValue where
  | int (n : Nat)
  | GLFW_OPENGL_CORE_PROFILE
  | GL_TRUE
  deriving DecidableEq, Repr

/-- Buffer binding targets used by the program. -/
inductive BufferTarget where
  | GL_ARRAY_BUFFER
  | GL_ELEMENT_ARRAY_BUFFER
  deriving DecidableEq, Repr

/-- Shader stages. -/
inductive ShaderType where
  | GL_VERTEX_SHADER
  | GL_FRAGMENT_SHADER
  deriving DecidableEq, Repr

/-- Names queried with `glGetString`. -/
inductive StringName where
  | GL_VERSION
  | GL_SHADING_LANGUAGE_VERSION
  | GL_VENDOR
  | GL_RENDERER
  deriving DecidableEq, Repr

/-- Component / index types. -/
inductive DataType where
  | GL_FLOAT
  | GL_UNSIGNED_INT
  deriving DecidableEq, Repr

/-- Primitive topologies. -/
inductive DrawMode where
  | GL_TRIANGLES
  deriving DecidableEq, Repr

/-- Buffer usage hints. -/
inductive Usage where
  | GL_STATIC_DRAW
  deriving DecidableEq, Repr

/-- Shader object parameters. -/
inductive ShaderParam where
  | GL_COMPILE_STATUS
  deriving DecidableEq, Repr

/-- Masks given to `glClear`. -/
inductive ClearMask where
  | GL_COLOR_BUFFER_BIT
  deriving DecidableEq, Repr

/-- Error codes recorded by the context. -/
inductive GLError where
  | GL_INVALID_VALUE
  | GL_INVALID_OPERATION
  deriving DecidableEq, Repr

/-- The data handed to `glBufferData`: the `vertices` array or the `indices` array. -/
inductive BufferData where
  | none
  | floats (l : List GLfloat)
  | uints (l : List Nat)
  deriving DecidableEq, Repr

/-- Number of bytes occupied by buffer data. -/
def BufferData.byteSize : BufferData → Nat
  | .none => 0
  | .floats l => sizeof_float * l.length
  | .uints l => sizeof_uint * l.length

/-! ## Library calls -/

/-- One call into GLFW, glad or OpenGL, with its arguments. -/
inductive Call where
  | glfwInit
  | glfwWindowHint (hint : Hint) (value : HintValue)
  | glfwCreateWindow (width height : Nat) (title : String)
  | glfwTerminate
  | glfwMakeContextCurrent
  | glfwSetFramebufferSizeCallback
  | gladLoadGLLoader
  | glfwWindowShouldClose
  | glfwGetKey (key : Nat)
  | glfwSetWindowShouldClose (value : Bool)
  | glfwSwapBuffers
  | glfwPollEvents
  | glGetString (name : StringName)
  | glGenVertexArrays (n : Nat)
  | glBindVertexArray (array : Nat)
  | glGenBuffers (n : Nat)
  | glBindBuffer (target : BufferTarget) (buffer : Nat)
  | glBufferData (target : BufferTarget) (size : Nat) (data : BufferData) (usage : Usage)
  | glCreateShader (type : ShaderType)
  | glShaderSource (shader : Nat) (count : Nat) (source : String)
  | glCompileShader (shader : Nat)
  | glGetShaderiv (shader : Nat) (pname : ShaderParam)
  | glGetShaderInfoLog (shader : Nat) (bufSize : Nat)
  | glCreateProgram
  | glAttachShader (program shader : Nat)
  | glLinkProgram (program : Nat)
  | glDeleteShader (shader : Nat)
  | glVertexAttribPointer (index size : Nat) (type : DataType) (normalized : Bool)
      (stride offset : Nat)
  | glEnableVertexAttribArray (index : Nat)
  | glClearColor (r g b a : GLfloat)
  | glClear (mask : ClearMask)
  | glUseProgram (program : Nat)
  | glDrawElements (mode : DrawMode) (count : Nat) (type : DataType) (offset : Nat)
  | glViewport (x y width height : Int)
  deriving DecidableEq, Repr

/-- The calls that are OpenGL entry points (`gl*`), as opposed to GLFW and glad calls. -/
def Call.isGL : Call → Bool
  | .glGetString _ => true
  | .glGenVertexArrays _ => true
  | .glBindVertexArray _ => true
  | .glGenBuffers _ => true
  | .glBindBuffer _ _ => true
  | .glBufferData _ _ _ _ => true
  | .glCreateShader _ => true
  | .glShaderSource _ _ _ => true
  | .glCompileShader _ => true
  | .glGetShaderiv _ _ => true
  | .glGetShaderInfoLog _ _ => true
  | .glCreateProgram => true
  | .glAttachShader _ _ => true
  | .glLinkProgram _ => true
  | .glDeleteShader _ => true
  | .glVertexAttribPointer _ _ _ _ _ _ => true
  | .glEnableVertexAttribArray _ => true
  | .glClearColor _ _ _ _ => true
  | .glClear _ => true
  | .glUseProgram _ => true
  | .glDrawElements _ _ _ _ => true
  | .glViewport _ _ _ _ => true
  | _ => false

/-- The calls that create, delete, fill or describe a GPU-resident object. -/
def Call.buildsObject : Call → Bool
  | .glGenVertexArrays _ => true
  | .glGenBuffers _ => true
  | .glBufferData _ _ _ _ => true
  | .glCreateShader _ => true
  | .glShaderSource _ _ _ => true
  | .glCompileShader _ => true
  | .glCreateProgram => true
  | .glAttachShader _ _ => true
  | .glLinkProgram _ => true
  | .glDeleteShader _ => true
  | .glVertexAttribPointer _ _ _ _ _ _ => true
  | .glEnableVertexAttribArray _ => true
  | _ => false

/-- Whether a call is an indexed draw call. -/
def Call.isDraw : Call → Bool
  | .glDrawElements _ _ _ _ => true
  | _ => false

/-! ## State of the OpenGL context -/

/-- The viewport rectangle. -/
structure Viewport where
  x : Int
  y : Int
  width : Int
  height : Int
  deriving DecidableEq, Repr

/-- An RGBA colour. -/
structure Color where
  r : GLfloat
  g : GLfloat
  b : GLfloat
  a : GLfloat
  deriving DecidableEq, Repr

/-- The layout of one vertex attribute, as recorded by `glVertexAttribPointer`: the component
count and type, the stride and offset in bytes, and the buffer that was bound to
`GL_ARRAY_BUFFER` when the call was made. -/
structure AttribPointer where
  index : Nat
  size : Nat
  type : DataType
  normalized : Bool
  stride : Nat
  offset : Nat
  buffer : Nat
  deriving DecidableEq, Repr

/-- A vertex array object: its element-array binding, its attribute layouts and the attribute
slots that are enabled. -/
structure VertexArray where
  name : Nat
  elementBuffer : Nat
  pointers : List AttribPointer
  enabled : List Nat
  deriving DecidableEq, Repr

/-- A buffer object and its data store. -/
structure Buffer where
  name : Nat
  size : Nat
  data : BufferData
  usage : Option Usage
  deriving DecidableEq, Repr

/-- A shader object. -/
structure Shader where
  name : Nat
  type : ShaderType
  source : String
  compiled : Bool
  deleteFlagged : Bool
  deriving DecidableEq, Repr

/-- A program object. -/
structure Program where
  name : Nat
  attached : List Nat
  linked : Bool
  deriving DecidableEq, Repr

/-- What an indexed draw call renders: the program and vertex array in use, the viewport, the
topology and the indices fetched from the element array. -/
structure DrawRecord where
  program : Nat
  vertexArray : Nat
  viewport : Viewport
  mode : DrawMode
  indices : List Nat
  deriving DecidableEq, Repr

/-- The contents of a colour buffer: the colour it was last cleared to and what has been drawn
over it since. -/
structure Frame where
  clear : Option Color
  draws : List DrawRecord
  deriving DecidableEq, Repr

/-- The state of the OpenGL context. -/
structure GLState where
  viewport : Viewport
  clearColor : Color
  program : Nat
  vertexArray : Nat
  arrayBuffer : Nat
  vaos : List VertexArray
  buffers : List Buffer
  shaders : List Shader
  programs : List Program
  nextVertexArray : Nat
  nextBuffer : Nat
  nextShaderProgram : Nat
  error : Option GLError
  backBuffer : Frame
  deriving DecidableEq, Repr

/-- The state of a context when it is first made current on a window whose framebuffer is
`width × height`: no objects, nothing bound, clear colour `(0,0,0,0)`, the viewport covering the
window. Object names are handed out from 1. -/
def GLState.initial (width height : Nat) : GLState :=
  { viewport := ⟨0, 0, width, height⟩
    clearColor := ⟨⟨0⟩, ⟨0⟩, ⟨0⟩, ⟨0⟩⟩
    program := 0
    vertexArray := 0
    arrayBuffer := 0
    vaos := []
    buffers := []
    shaders := []
    programs := []
    nextVertexArray := 1
    nextBuffer := 1
    nextShaderProgram := 1
    error := none
    backBuffer := ⟨none, []⟩ }

/-- The vertex array object with a given name. -/
def GLState.findVAO (g : GLState) (name : Nat) : Option VertexArray :=
  g.vaos.find? (fun v => v.name == name)

/-- The buffer object with a given name. -/
def GLState.findBuffer (g : GLState) (name : Nat) : Option Buffer :=
  g.buffers.find? (fun b => b.name == name)

/-- The vertex array object currently bound, if any. -/
def GLState.boundVAO (g : GLState) : Option VertexArray :=
  if g.vertexArray = 0 then none else g.findVAO g.vertexArray

/-- The buffer bound to a target: `GL_ARRAY_BUFFER` is context state, `GL_ELEMENT_ARRAY_BUFFER`
is state of the bound vertex array object. -/
def GLState.boundBuffer (g : GLState) : BufferTarget → Nat
  | .GL_ARRAY_BUFFER => g.arrayBuffer
  | .GL_ELEMENT_ARRAY_BUFFER =>
    match g.boundVAO with
    | some v => v.elementBuffer
    | none => 0

/-- Apply `f` to the vertex array object currently bound. -/
def GLState.modifyBoundVAO (g : GLState) (f : VertexArray → VertexArray) : GLState :=
  { g with vaos := g.vaos.map (fun v => if v.name = g.vertexArray then f v else v) }

/-- The indices an indexed draw of `count` elements starting at byte `offset` fetches from the
element array of the bound vertex array object. -/
def GLState.fetchIndices (g : GLState) (count offset : Nat) : List Nat :=
  match g.boundVAO with
  | none => []
  | some v =>
    match g.findBuffer v.elementBuffer with
    | some ⟨_, _, .uints l, _⟩ => (l.drop (offset / sizeof_uint)).take count
    | _ => []

/-! ## Effect of the OpenGL commands on the context -/

namespace GLState

/-- Record an error in the context; the flag keeps the first error recorded. -/
def raise (g : GLState) (e : GLError) : GLState :=
  { g with error := g.error.orElse (fun _ => some e) }

/-- Effect of `glGenVertexArrays(n, arrays)`: `n` names are taken. -/
def glGenVertexArrays (g : GLState) (n : Nat) : GLState :=
  { g with nextVertexArray := g.nextVertexArray + n }

/-- Effect of `glBindVertexArray(array)`: binds the object, creating it on its first bind; a name
that `glGenVertexArrays` did not return is an error. -/
def glBindVertexArray (g : GLState) (array : Nat) : GLState :=
  if array = 0 then { g with vertexArray := 0 }
  else if array < g.nextVertexArray then
    { g with
      vertexArray := array
      vaos := if (g.findVAO array).isSome then g.vaos else g.vaos ++ [⟨array, 0, [], []⟩] }
  else g.raise .GL_INVALID_OPERATION

/-- Effect of `glGenBuffers(n, buffers)`: `n` names are taken. -/
def glGenBuffers (g : GLState) (n : Nat) : GLState :=
  { g with nextBuffer := g.nextBuffer + n }

/-- Effect of `glBindBuffer(target, buffer)`: creates the object on its first bind; the
`GL_ARRAY_BUFFER` binding is context state, the `GL_ELEMENT_ARRAY_BUFFER` binding is stored in
the vertex array object that is bound. -/
def glBindBuffer (g : GLState) (target : BufferTarget) (buffer : Nat) : GLState :=
  if buffer ≠ 0 ∧ ¬ buffer < g.nextBuffer then g.raise .GL_INVALID_OPERATION
  else
    let g :=
      if buffer = 0 ∨ (g.findBuffer buffer).isSome then g
      else { g with buffers := g.buffers ++ [⟨buffer, 0, .none, none⟩] }
    match target with
    | .GL_ARRAY_BUFFER => { g with arrayBuffer := buffer }
    | .GL_ELEMENT_ARRAY_BUFFER =>
      if g.boundVAO.isSome then g.modifyBoundVAO (fun v => { v with elementBuffer := buffer })
      else g.raise .GL_INVALID_OPERATION

/-- Effect of `glBufferData(target, size, data, usage)`: gives the buffer bound to `target` a new
data store of `size` bytes holding `data`. -/
def glBufferData (g : GLState) (target : BufferTarget) (size : Nat) (data : BufferData)
    (usage : Usage) : GLState :=
  let b := g.boundBuffer target
  if b = 0 then g.raise .GL_INVALID_OPERATION
  else
    { g with
      buffers := g.buffers.map
        (fun x => if x.name = b then { x with size := size, data := data, usage := some usage }
                  else x) }

/-- Effect of `glCreateShader(type)`: a new shader object under the next unused name. -/
def glCreateShader (g : GLState) (type : ShaderType) : GLState :=
  { g with
    shaders := g.shaders ++ [⟨g.nextShaderProgram, type, "", false, false⟩]
    nextShaderProgram := g.nextShaderProgram + 1 }

/-- Effect of `glShaderSource(shader, count, string, NULL)`. -/
def glShaderSource (g : GLState) (shader : Nat) (source : String) : GLState :=
  { g with
    shaders := g.shaders.map
      (fun s => if s.name = shader then { s with source := source } else s) }

/-- Effect of `glCompileShader(shader)`: `compiles` is what the compiler answers for each
stage. -/
def glCompileShader (g : GLState) (compiles : ShaderType → Bool) (shader : Nat) : GLState :=
  { g with
    shaders := g.shaders.map
      (fun s => if s.name = shader then { s with compiled := compiles s.type } else s) }

/-- The shader object with a given name. -/
def findShader (g : GLState) (shader : Nat) : Option Shader :=
  g.shaders.find? (fun s => s.name == shader)

/-- Whether the shader with a given name exists and is compiled. -/
def isCompiled (g : GLState) (shader : Nat) : Bool :=
  match g.findShader shader with
  | some s => s.compiled
  | none => false

/-- Effect of `glCreateProgram()`: a new program object under the next unused name. -/
def glCreateProgram (g : GLState) : GLState :=
  { g with
    programs := g.programs ++ [⟨g.nextShaderProgram, [], false⟩]
    nextShaderProgram := g.nextShaderProgram + 1 }

/-- Effect of `glAttachShader(program, shader)`. -/
def glAttachShader (g : GLState) (program shader : Nat) : GLState :=
  { g with
    programs := g.programs.map
      (fun p => if p.name = program then { p with attached := p.attached ++ [shader] } else p) }

/-- Effect of `glLinkProgram(program)`: linking fails when an attached shader is not compiled;
`linkOk` is what the linker answers otherwise. -/
def glLinkProgram (g : GLState) (linkOk : Bool) (program : Nat) : GLState :=
  { g with
    programs := g.programs.map
      (fun p => if p.name = program then
                  { p with linked := linkOk && p.attached.all g.isCompiled }
                else p) }

/-- Effect of `glDeleteShader(shader)`: a shader attached to a program is only flagged for
deletion, any other shader is deleted at once. -/
def glDeleteShader (g : GLState) (shader : Nat) : GLState :=
  { g with
    shaders :=
      if g.programs.any (fun p => p.attached.contains shader) then
        g.shaders.map (fun s => if s.name = shader then { s with deleteFlagged := true } else s)
      else g.shaders.filter (fun s => s.name != shader) }

/-- Effect of `glVertexAttribPointer(index, size, type, normalized, stride, pointer)`: records
the layout in the bound vertex array object, together with the buffer bound to
`GL_ARRAY_BUFFER`. -/
def glVertexAttribPointer (g : GLState) (index size : Nat) (type : DataType)
    (normalized : Bool) (stride offset : Nat) : GLState :=
  if g.boundVAO.isSome then
    g.modifyBoundVAO (fun v =>
      { v with
        pointers := v.pointers.filter (fun p => p.index != index) ++
          [⟨index, size, type, normalized, stride, offset, g.arrayBuffer⟩] })
  else g.raise .GL_INVALID_OPERATION

/-- Effect of `glEnableVertexAttribArray(index)`: enables the slot in the bound vertex array
object. -/
def glEnableVertexAttribArray (g : GLState) (index : Nat) : GLState :=
  if g.boundVAO.isSome then
    g.modifyBoundVAO (fun v =>
      { v with enabled := if index ∈ v.enabled then v.enabled else v.enabled ++ [index] })
  else g.raise .GL_INVALID_OPERATION

/-- Effect of `glClearColor(r, g, b, a)`. -/
def glClearColor (s : GLState) (r g b a : GLfloat) : GLState :=
  { s with clearColor := ⟨r, g, b, a⟩ }

/-- Effect of `glClear(GL_COLOR_BUFFER_BIT)`: the colour buffer holds the clear colour and
nothing else. -/
def glClear (g : GLState) (_mask : ClearMask) : GLState :=
  { g with backBuffer := ⟨some g.clearColor, []⟩ }

/-- Effect of `glUseProgram(program)`: a program that is not linked cannot be made current. -/
def glUseProgram (g : GLState) (program : Nat) : GLState :=
  if program = 0 then { g with program := 0 }
  else
    match g.programs.find? (fun p => p.name == program) with
    | some p => if p.linked then { g with program := program }
                else g.raise .GL_INVALID_OPERATION
    | none => g.raise .GL_INVALID_VALUE

/-- What `glDrawElements(mode, count, type, indices)` renders in a given context state. -/
def drawRecord (g : GLState) (mode : DrawMode) (count offset : Nat) : DrawRecord :=
  ⟨g.program, g.vertexArray, g.viewport, mode, g.fetchIndices count offset⟩

/-- Effect of `glDrawElements(mode, count, type, indices)`: draws over the colour buffer with
the current program, vertex array and viewport. -/
def glDrawElements (g : GLState) (mode : DrawMode) (count : Nat) (_type : DataType)
    (offset : Nat) : GLState :=
  { g with
    backBuffer := { g.backBuffer with
                    draws := g.backBuffer.draws ++ [g.drawRecord mode count offset] } }

/-- Effect of `glViewport(x, y, width, height)`: a negative width or height is an error and
leaves the viewport as it is. -/
def glViewport (g : GLState) (x y width height : Int) : GLState :=
  if width < 0 ∨ height < 0 then g.raise .GL_INVALID_VALUE
  else { g with viewport := ⟨x, y, width, height⟩ }

end GLState

/-! ## The environment and the world -/

/-- An OS event delivered to the window during `glfwPollEvents`. The size of a framebuffer
resize is the size in pixels of the drawable area, which is not negative. -/
inductive Event where
  | key (key : Nat) (action : Action)
  | closeRequested
  | framebufferSize (width height : Nat)
  deriving DecidableEq, Repr

/-- Everything the program does not decide itself. -/
structure Env where
  /-- Whether the program is built with `__APPLE__` defined. -/
  apple : Bool
  /-- Whether `glfwCreateWindow` returns a window (rather than `NULL`). -/
  windowCreated : Bool
  /-- Framebuffer size of the window when it is created. -/
  framebufferWidth : Nat
  framebufferHeight : Nat
  /-- Whether `gladLoadGLLoader` reports success. -/
  loaderOk : Bool
  /-- The strings answered by `glGetString`. -/
  glString : StringName → String
  /-- Whether the compiler accepts the shader of each stage, and the info log it keeps. -/
  compiles : ShaderType → Bool
  infoLog : ShaderType → List Char
  /-- Whether the linker succeeds when every attached shader is compiled. -/
  linkOk : Bool
  /-- The events delivered by the successive calls of `glfwPollEvents`. -/
  polls : List (List Event)

/-- Severity of a log line. -/
inductive Level where
  | info
  | error
  deriving DecidableEq, Repr

/-- A line written through spdlog: the format string and the argument substituted into it. -/
structure LogLine where
  level : Level
  format : String
  arg : Option String
  deriving DecidableEq, Repr

/-- State of the GLFW window. -/
structure Window where
  created : Bool
  contextCurrent : Bool
  resizeCallback : Bool
  shouldClose : Bool
  pressed : List Nat
  presented : List Frame
  deriving DecidableEq, Repr

/-- The state threaded through the program. -/
structure World where
  win : Window
  gl : GLState
  trace : List Call
  out : List LogLine
  drawStates : List GLState
  deriving DecidableEq, Repr

/-- The world when `main` starts. -/
def World.start : World :=
  { win := ⟨false, false, false, false, [], []⟩
    gl := GLState.initial 0 0
    trace := []
    out := []
    drawStates := [] }

/-- Record a library call. -/
def World.call (w : World) (c : Call) : World :=
  { w with trace := w.trace ++ [c] }

/-- Issue an OpenGL command: the call is recorded and the context changes by `f`. -/
def World.command (w : World) (c : Call) (f : GLState → GLState) : World :=
  { w with trace := w.trace ++ [c], gl := f w.gl }

/-! ## spdlog -/

/-- Model of `spdlog::info(format, arg)`. -/
def spdlog_info (format : String) (arg : Option String) (w : World) : World :=
  { w with out := w.out ++ [⟨.info, format, arg⟩] }

/-- Model of `spdlog::error(format, arg)`. -/
def spdlog_error (format : String) (arg : Option String) (w : World) : World :=
  { w with out := w.out ++ [⟨.error, format, arg⟩] }

/-! ## OpenGL entry points -/

/-- Model of `glGetString(name)`. -/
def glGetString (env : Env) (name : StringName) (w : World) : String × World :=
  (env.glString name, w.call (.glGetString name))

/-- Model of `glGenVertexArrays(n, arrays)`: answers `n` previously unused names. -/
def glGenVertexArrays (n : Nat) (w : World) : List Nat × World :=
  (List.range' w.gl.nextVertexArray n,
   w.command (.glGenVertexArrays n) (fun g => g.glGenVertexArrays n))

/-- Model of `glBindVertexArray(array)`. -/
def glBindVertexArray (array : Nat) (w : World) : World :=
  w.command (.glBindVertexArray array) (fun g => g.glBindVertexArray array)

/-- Model of `glGenBuffers(n, buffers)`: answers `n` previously unused names. -/
def glGenBuffers (n : Nat) (w : World) : List Nat × World :=
  (List.range' w.gl.nextBuffer n, w.command (.glGenBuffers n) (fun g => g.glGenBuffers n))

/-- Model of `glBindBuffer(target, buffer)`. -/
def glBindBuffer (target : BufferTarget) (buffer : Nat) (w : World) : World :=
  w.command (.glBindBuffer target buffer) (fun g => g.glBindBuffer target buffer)

/-- Model of `glBufferData(target, size, data, usage)`. -/
def glBufferData (target : BufferTarget) (size : Nat) (data : BufferData) (usage : Usage)
    (w : World) : World :=
  w.command (.glBufferData target size data usage)
    (fun g => g.glBufferData target size data usage)

/-- Model of `glCreateShader(type)`: answers the name of the new shader object. -/
def glCreateShader (type : ShaderType) (w : World) : Nat × World :=
  (w.gl.nextShaderProgram, w.command (.glCreateShader type) (fun g => g.glCreateShader type))

/-- Model of `glShaderSource(shader, count, string, NULL)`. -/
def glShaderSource (shader count : Nat) (source : String) (w : World) : World :=
  w.command (.glShaderSource shader count source) (fun g => g.glShaderSource shader source)

/-- Model of `glCompileShader(shader)`: the compile status is what the compiler of the
environment answers for the stage of the shader. -/
def glCompileShader (env : Env) (shader : Nat) (w : World) : World :=
  w.command (.glCompileShader shader) (fun g => g.glCompileShader env.compiles shader)

/-- Model of `glGetShaderiv(shader, GL_COMPILE_STATUS, params)`: 1 when the last compile
succeeded, 0 otherwise. -/
def glGetShaderiv (shader : Nat) (pname : ShaderParam) (w : World) : Int × World :=
  (if w.gl.isCompiled shader then 1 else 0, w.call (.glGetShaderiv shader pname))

/-- Model of `glGetShaderInfoLog(shader, bufSize, NULL, infoLog)`: at most `bufSize - 1`
characters of the info log are written to the buffer, followed by the terminator. -/
def glGetShaderInfoLog (env : Env) (shader bufSize : Nat) (w : World) : String × World :=
  let log : List Char :=
    match w.gl.findShader shader with
    | some s => env.infoLog s.type
    | none => []
  (String.mk (log.take (bufSize - 1)), w.call (.glGetShaderInfoLog shader bufSize))

/-- Model of `glCreateProgram()`: answers the name of the new program object. -/
def glCreateProgram (w : World) : Nat × World :=
  (w.gl.nextShaderProgram, w.command .glCreateProgram (fun g => g.glCreateProgram))

/-- Model of `glAttachShader(program, shader)`. -/
def glAttachShader (program shader : Nat) (w : World) : World :=
  w.command (.glAttachShader program shader) (fun g => g.glAttachShader program shader)

/-- Model of `glLinkProgram(program)`. -/
def glLinkProgram (env : Env) (program : Nat) (w : World) : World :=
  w.command (.glLinkProgram program) (fun g => g.glLinkProgram env.linkOk program)

/-- Model of `glDeleteShader(shader)`. -/
def glDeleteShader (shader : Nat) (w : World) : World :=
  w.command (.glDeleteShader shader) (fun g => g.glDeleteShader shader)

/-- Model of `glVertexAttribPointer(index, size, type, normalized, stride, pointer)`. -/
def glVertexAttribPointer (index size : Nat) (type : DataType) (normalized : Bool)
    (stride offset : Nat) (w : World) : World :=
  w.command (.glVertexAttribPointer index size type normalized stride offset)
    (fun g => g.glVertexAttribPointer index size type normalized stride offset)

/-- Model of `glEnableVertexAttribArray(index)`. -/
def glEnableVertexAttribArray (index : Nat) (w : World) : World :=
  w.command (.glEnableVertexAttribArray index) (fun g => g.glEnableVertexAttribArray index)

/-- Model of `glClearColor(r, g, b, a)`. -/
def glClearColor (r g b a : GLfloat) (w : World) : World :=
  w.command (.glClearColor r g b a) (fun s => s.glClearColor r g b a)

/-- Model of `glClear(mask)`. -/
def glClear (mask : ClearMask) (w : World) : World :=
  w.command (.glClear mask) (fun g => g.glClear mask)

/-- Model of `glUseProgram(program)`. -/
def glUseProgram (program : Nat) (w : World) : World :=
  w.command (.glUseProgram program) (fun g => g.glUseProgram program)

/-- Model of `glDrawElements(mode, count, type, indices)`. The context state at the call is
kept in `drawStates`. -/
def glDrawElements (mode : DrawMode) (count : Nat) (type : DataType) (offset : Nat)
    (w : World) : World :=
  { w.command (.glDrawElements mode count type offset)
      (fun g => g.glDrawElements mode count type offset) with
    drawStates := w.drawStates ++ [w.gl] }

/-- Model of `glViewport(x, y, width, height)`. -/
def glViewport (x y width height : Int) (w : World) : World :=
  w.command (.glViewport x y width height) (fun g => g.glViewport x y width height)

/-! ## GLFW and glad -/

/-- Model of `glfwInit()`; the program ignores its result. -/
def glfwInit (w : World) : World := w.call .glfwInit

/-- Model of `glfwWindowHint(hint, value)`. -/
def glfwWindowHint (hint : Hint) (value : HintValue) (w : World) : World :=
  w.call (.glfwWindowHint hint value)

/-- Model of `glfwCreateWindow(width, height, title, NULL, NULL)`: answers whether the window
pointer is non-`NULL`. A new window has its close flag clear and no key pressed. -/
def glfwCreateWindow (env : Env) (width height : Nat) (title : String) (w : World) :
    Bool × World :=
  let w := w.call (.glfwCreateWindow width height title)
  if env.windowCreated then
    (true, { w with win := ⟨true, false, false, false, [], []⟩ })
  else (false, w)

/-- Model of `glfwTerminate()`: destroys the window and its context. -/
def glfwTerminate (w : World) : World :=
  { w.call .glfwTerminate with win := { w.win with created := false, contextCurrent := false } }

/-- Model of `glfwMakeContextCurrent(window)`: the context of the window becomes current, in its
initial state. -/
def glfwMakeContextCurrent (env : Env) (w : World) : World :=
  { w.call .glfwMakeContextCurrent with
    win := { w.win with contextCurrent := true }
    gl := GLState.initial env.framebufferWidth env.framebufferHeight }

/-- Model of `glfwSetFramebufferSizeCallback(window, framebuffer_size_callback)`. -/
def glfwSetFramebufferSizeCallback (w : World) : World :=
  { w.call .glfwSetFramebufferSizeCallback with win := { w.win with resizeCallback := true } }

/-- Model of `gladLoadGLLoader((GLADloadproc)glfwGetProcAddress)`: answers whether the entry
points were resolved. -/
def gladLoadGLLoader (env : Env) (w : World) : Bool × World :=
  (env.loaderOk, w.call .gladLoadGLLoader)

/-- Model of `glfwWindowShouldClose(window)`. -/
def glfwWindowShouldClose (w : World) : Bool × World :=
  (w.win.shouldClose, w.call .glfwWindowShouldClose)

/-- Model of `glfwGetKey(window, key)`: the last state reported for the key, `GLFW_PRESS` or
`GLFW_RELEASE`. -/
def glfwGetKey (key : Nat) (w : World) : Action × World :=
  (if key ∈ w.win.pressed then Action.GLFW_PRESS else Action.GLFW_RELEASE,
   w.call (.glfwGetKey key))

/-- Model of `glfwSetWindowShouldClose(window, value)`. -/
def glfwSetWindowShouldClose (value : Bool) (w : World) : World :=
  { w.call (.glfwSetWindowShouldClose value) with win := { w.win with shouldClose := value } }

/-- Model of `glfwSwapBuffers(window)`: the back buffer is presented. -/
def glfwSwapBuffers (w : World) : World :=
  { w.call .glfwSwapBuffers with
    win := { w.win with presented := w.win.presented ++ [w.gl.backBuffer] } }

/-! ## The program: `src/main.cpp` -/

/-- Lines 177-180:
```
void framebuffer_size_callback(GLFWwindow *window, int width, int height) {
  glViewport(0, 0, width, height);
}
```
-/
def framebuffer_size_callback (width height : Int) (w : World) : World :=
  glViewport 0 0 width height w

/-- Delivery of one event by GLFW: a key event updates the key state, a close request sets the
close flag, a framebuffer resize runs the registered callback. -/
def deliver (w : World) : Event → World
  | .key k .GLFW_RELEASE =>
    { w with win := { w.win with pressed := w.win.pressed.filter (fun x => x != k) } }
  | .key k _ =>
    { w with win := { w.win with pressed := if k ∈ w.win.pressed then w.win.pressed
                                             else k :: w.win.pressed } }
  | .closeRequested => { w with win := { w.win with shouldClose := true } }
  | .framebufferSize width height =>
    if w.win.resizeCallback then framebuffer_size_callback width height w else w

/-- Model of `glfwPollEvents()`: delivers the pending events in order. -/
def glfwPollEvents (events : List Event) (w : World) : World :=
  events.foldl deliver (w.call .glfwPollEvents)

/-- Lines 172-175:
```
void process_input(GLFWwindow *window) {
  if (glfwGetKey(window, GLFW_KEY_ESCAPE) == GLFW_PRESS)
    glfwSetWindowShouldClose(window, true);
}
```
-/
def process_input (w : World) : World :=
  let r := glfwGetKey GLFW_KEY_ESCAPE w
  if r.1 = Action.GLFW_PRESS then glfwSetWindowShouldClose true r.2 else r.2

/-- Lines 62-67: the `vertices` array. -/
def vertices : List GLfloat :=
  [⟨5⟩, ⟨5⟩, ⟨0⟩,
   ⟨5⟩, ⟨-5⟩, ⟨0⟩,
   ⟨-5⟩, ⟨-5⟩, ⟨0⟩,
   ⟨-5⟩, ⟨5⟩, ⟨0⟩]

/-- Lines 69-72: the `indices` array. -/
def indices : List Nat :=
  [0, 1, 3,
   1, 2, 3]

/-- Lines 87-93: the vertex shader source, up to the terminator. -/
def vertexShaderSource : String :=
  "#version 330 core\nlayout (location = 0) in vec3 aPos;\nvoid main()\n\x7b\n   gl_Position = vec4(aPos.x, aPos.y, aPos.z, 1.0);\n\x7d"

/-- Lines 112-118: the fragment shader source, up to the terminator. -/
def fragmentShaderSource : String :=
  "#version 330 core\nout vec4 FragColor;\nvoid main()\n\x7b\n   FragColor = vec4(1.0f, 0.5f, 0.2f, 1.0f);\n\x7d"

/-- The object names `main` keeps in its local variables. -/
structure Handles where
  VAO : Nat
  VBO : Nat
  EBO : Nat
  shaderProgram : Nat
  deriving DecidableEq, Repr

/-- Lines 24-31 of `main`: GLFW initialisation and the window hints. -/
def init_glfw (env : Env) (w : World) : World :=
  let w := glfwInit w
  let w := glfwWindowHint .GLFW_CONTEXT_VERSION_MAJOR (.int 3) w
  let w := glfwWindowHint .GLFW_CONTEXT_VERSION_MINOR (.int 3) w
  let w := glfwWindowHint .GLFW_OPENGL_PROFILE .GLFW_OPENGL_CORE_PROFILE w
  if env.apple then glfwWindowHint .GLFW_OPENGL_FORWARD_COMPAT .GL_TRUE w else w

/-- Lines 52-60 of `main`: the four information lines. -/
def print_info (env : Env) (w : World) : World :=
  let r := glGetString env .GL_VERSION w
  let w := spdlog_info "OpenGL Version: \x7b\x7d" (some r.1) r.2
  let r := glGetString env .GL_SHADING_LANGUAGE_VERSION w
  let w := spdlog_info "GLSL Version: \x7b\x7d" (some r.1) r.2
  let r := glGetString env .GL_VENDOR w
  let w := spdlog_info "Vendor: \x7b\x7d" (some r.1) r.2
  let r := glGetString env .GL_RENDERER w
  spdlog_info "Renderer: \x7b\x7d" (some r.1) r.2

/-- Lines 95-110 (vertex stage) and 120-131 (fragment stage) of `main`: create the shader, give
it its source, compile it, read the compile status and log the info log when it is zero. -/
def compile_stage (env : Env) (type : ShaderType) (source : String) (message : String)
    (w : World) : Nat × World :=
  let r := glCreateShader type w
  let shader := r.1
  let w := glShaderSource shader 1 source r.2
  let w := glCompileShader env shader w
  let r := glGetShaderiv shader .GL_COMPILE_STATUS w
  let success := r.1
  let w := r.2
  if success = 0 then
    let r := glGetShaderInfoLog env shader 512 w
    (shader, spdlog_error message (some r.1) r.2)
  else (shader, w)

/-- Lines 74-85 of `main`: the vertex array object, the vertex buffer and the index buffer.
Answers `(VAO, VBO, EBO)`. -/
def setup_geometry (w : World) : (Nat × Nat × Nat) × World :=
  -- 74-76
  let r := glGenVertexArrays 1 w
  let VAO := r.1.headD 0
  let w := glBindVertexArray VAO r.2
  -- 78-80
  let r := glGenBuffers 1 w
  let VBO := r.1.headD 0
  let w := glBindBuffer .GL_ARRAY_BUFFER VBO r.2
  let w := glBufferData .GL_ARRAY_BUFFER (sizeof_float * vertices.length) (.floats vertices)
    .GL_STATIC_DRAW w
  -- 82-85
  let r := glGenBuffers 1 w
  let EBO := r.1.headD 0
  let w := glBindBuffer .GL_ELEMENT_ARRAY_BUFFER EBO r.2
  let w := glBufferData .GL_ELEMENT_ARRAY_BUFFER (sizeof_uint * indices.length) (.uints indices)
    .GL_STATIC_DRAW w
  ((VAO, VBO, EBO), w)

/-- Lines 133-139 of `main`: create the program, attach both shaders, link, and delete the
shaders. Answers `shaderProgram`. -/
def link_program (env : Env) (vertexShader fragmentShader : Nat) (w : World) : Nat × World :=
  let r := glCreateProgram w
  let shaderProgram := r.1
  let w := glAttachShader shaderProgram vertexShader r.2
  let w := glAttachShader shaderProgram fragmentShader w
  let w := glLinkProgram env shaderProgram w
  let w := glDeleteShader vertexShader w
  let w := glDeleteShader fragmentShader w
  (shaderProgram, w)

/-- Lines 141-145 of `main`: the vertex layout, then the vertex array is unbound. -/
def setup_layout (w : World) : World :=
  let w := glVertexAttribPointer 0 3 .GL_FLOAT false (3 * sizeof_float) 0 w
  let w := glEnableVertexAttribArray 0 w
  glBindVertexArray 0 w

/-- Lines 62-145 of `main`: the geometry buffers, the shader program and the vertex layout, in
the order of the source. -/
def setup (env : Env) (w : World) : Handles × World :=
  -- 74-85
  let geometry := setup_geometry w
  -- 95-110
  let vertex := compile_stage env .GL_VERTEX_SHADER vertexShaderSource
    "ERROR::SHADER::VERTEX::COMPILATION_FAILED\n\x7b\x7d" geometry.2
  -- 120-131
  let fragment := compile_stage env .GL_FRAGMENT_SHADER fragmentShaderSource
    "ERROR::SHADER::FRAGMENT::COMPILATION_FAILED\n\x7b\x7d" vertex.2
  -- 133-139
  let program := link_program env vertex.1 fragment.1 fragment.2
  -- 141-145
  let w := setup_layout program.2
  (⟨geometry.1.1, geometry.1.2.1, geometry.1.2.2, program.1⟩, w)

/-- Lines 152-159 of `main`: the drawing commands of one frame. -/
def draw_frame (h : Handles) (w : World) : World :=
  let w := glClearColor ⟨2⟩ ⟨3⟩ ⟨3⟩ ⟨10⟩ w
  let w := glClear .GL_COLOR_BUFFER_BIT w
  let w := glUseProgram h.shaderProgram w
  let w := glBindVertexArray h.VAO w
  let w := glDrawElements .GL_TRIANGLES 6 .GL_UNSIGNED_INT 0 w
  glBindVertexArray 0 w

/-- Lines 149-164 of `main`: the body of the render loop; `events` is what the
`glfwPollEvents` call of this iteration delivers. -/
def loop_body (h : Handles) (events : List Event) (w : World) : World :=
  let w := process_input w
  let w := draw_frame h w
  let w := glfwSwapBuffers w
  glfwPollEvents events w

/-- Lines 148-165 of `main`: `while (!glfwWindowShouldClose(window)) body`. Each iteration
consumes the events of one `glfwPollEvents`. The result says whether the loop has ended, and
gives the world reached: when the events run out while the close flag is still clear, the loop
has not ended. -/
def render_loop (h : Handles) : List (List Event) → World → Bool × World
  | [], w => glfwWindowShouldClose w
  | events :: rest, w =>
    let r := glfwWindowShouldClose w
    if r.1 then (true, r.2) else render_loop h rest (loop_body h events r.2)

/-- Number of iterations the render loop performs on the given events. -/
def loop_iterations (h : Handles) : List (List Event) → World → Nat
  | [], _ => 0
  | events :: rest, w =>
    let r := glfwWindowShouldClose w
    if r.1 then 0 else loop_iterations h rest (loop_body h events r.2) + 1

/-- Lines 22-170: `int main()`. The result is the exit code, or `none` when the render loop
does not end on the events of the environment, together with the world reached. -/
def main (env : Env) : Option Int × World :=
  -- 24-31
  let w := init_glfw env World.start
  -- 34-41
  let r := glfwCreateWindow env SCR_WIDTH SCR_HEIGHT "Hekla - OpenGL Window" w
  if r.1 = false then
    let w := spdlog_error "Failed to create GLFW window" none r.2
    let w := glfwTerminate w
    (some (-1), w)
  else
    -- 42-43
    let w := glfwMakeContextCurrent env r.2
    let w := glfwSetFramebufferSizeCallback w
    -- 46-50
    let r := gladLoadGLLoader env w
    if r.1 = false then
      let w := spdlog_error "Failed to initialize GLAD" none r.2
      (some (-1), w)
    else
      -- 52-145
      let w := print_info env r.2
      let r := setup env w
      -- 148-165
      let l := render_loop r.1 env.polls r.2
      if l.1 then
        -- 168-169
        let w := glfwTerminate l.2
        (some 0, w)
      else (none, l.2)

/-! ## Sample environments -/

/-- An environment in which everything succeeds: the window is resized during the first frame
and escape is pressed, which the second iteration observes. -/
def env0 : Env :=
  { apple := false
    windowCreated := true
    framebufferWidth := 800
    framebufferHeight := 600
    loaderOk := true
    glString := fun _ => "x"
    compiles := fun _ => true
    infoLog := fun _ => []
    linkOk := true
    polls := [[.framebufferSize 640 480, .key GLFW_KEY_ESCAPE .GLFW_PRESS], []] }

/-- An environment in which `glfwCreateWindow` returns `NULL`. -/
def envNoWindow : Env := { env0 with windowCreated := false }

/-- An environment in which the window is created and `gladLoadGLLoader` fails. -/
def envNoLoader : Env := { env0 with loaderOk := false }

/-- An environment in which both shaders fail to compile. -/
def envBadShaders : Env :=
  { env0 with compiles := fun _ => false, infoLog := fun _ => ['b', 'a', 'd'] }

/-! ## What one iteration of the render loop does, in closed form -/

/-- The calls of `process_input` in a given world. -/
def inputCalls (w : World) : List Call :=
  if GLFW_KEY_ESCAPE ∈ w.win.pressed then
    [.glfwGetKey GLFW_KEY_ESCAPE, .glfwSetWindowShouldClose true]
  else [.glfwGetKey GLFW_KEY_ESCAPE]

/-- The six drawing commands of lines 153-159. -/
def frameCalls (h : Handles) : List Call :=
  [.glClearColor ⟨2⟩ ⟨3⟩ ⟨3⟩ ⟨10⟩,
   .glClear .GL_COLOR_BUFFER_BIT,
   .glUseProgram h.shaderProgram,
   .glBindVertexArray h.VAO,
   .glDrawElements .GL_TRIANGLES 6 .GL_UNSIGNED_INT 0,
   .glBindVertexArray 0]

/-- The context state in which the draw call of a frame is issued. -/
def GLState.atDraw (g : GLState) (h : Handles) : GLState :=
  (((g.glClearColor ⟨2⟩ ⟨3⟩ ⟨3⟩ ⟨10⟩).glClear .GL_COLOR_BUFFER_BIT).glUseProgram
    h.shaderProgram).glBindVertexArray h.VAO

/-- The context state after the six drawing commands of a frame. -/
def GLState.frame (g : GLState) (h : Handles) : GLState :=
  ((g.atDraw h).glDrawElements .GL_TRIANGLES 6 .GL_UNSIGNED_INT 0).glBindVertexArray 0

/-- The calls the resize callback makes while the given events are delivered. -/
def resizeCalls : List Event → List Call
  | [] => []
  | .framebufferSize width height :: rest =>
    .glViewport 0 0 width height :: resizeCalls rest
  | _ :: rest => resizeCalls rest

/-- The viewport after the resize callback has run for the given events. -/
def resizedViewport (v : Viewport) : List Event → Viewport
  | [] => v
  | .framebufferSize width height :: rest => resizedViewport ⟨0, 0, width, height⟩ rest
  | _ :: rest => resizedViewport v rest

/-- The keys held down after the given events. -/
def keysAfter (pressed : List Nat) : List Event → List Nat
  | [] => pressed
  | .key k .GLFW_RELEASE :: rest => keysAfter (pressed.filter (fun x => x != k)) rest
  | .key k _ :: rest => keysAfter (if k ∈ pressed then pressed else k :: pressed) rest
  | _ :: rest => keysAfter pressed rest

/-- Whether the events hold a close request. -/
def closeRequested (events : List Event) : Bool :=
  events.contains .closeRequested

/-- Whether the events hold no framebuffer resize. -/
def noResize (events : List Event) : Bool :=
  events.all (fun e => match e with
    | .framebufferSize _ _ => false
    | _ => true)

/-- The world when the render loop is first reached, on the path where the window is created
and the loader succeeds (lines 24-145). -/
def loop_entry (env : Env) : Handles × World :=
  let w := init_glfw env World.start
  let r := glfwCreateWindow env SCR_WIDTH SCR_HEIGHT "Hekla - OpenGL Window" w
  let w := glfwMakeContextCurrent env r.2
  let w := glfwSetFramebufferSizeCallback w
  let r := gladLoadGLLoader env w
  let w := print_info env r.2
  setup env w

/-- The world at the head of the render loop after one iteration for each of the given polls,
whatever the close flag says. -/
def loop_head (env : Env) (polls : List (List Event)) : World :=
  polls.foldl
    (fun w events => loop_body (loop_entry env).1 events (glfwWindowShouldClose w).2)
    (loop_entry env).2

/-! ## The world when the render loop is reached, in closed form -/

/-- The calls of one `compile_stage`: the info log is read only when the compile failed. -/
def stageCalls (type : ShaderType) (shader : Nat) (source : String) (ok : Bool) : List Call :=
  [.glCreateShader type, .glShaderSource shader 1 source, .glCompileShader shader,
   .glGetShaderiv shader .GL_COMPILE_STATUS] ++
  (if ok then [] else [.glGetShaderInfoLog shader 512])

/-- The calls of lines 24-50 on the path where the window is created and the loader
succeeds. -/
def startupCalls (apple : Bool) : List Call :=
  [.glfwInit,
   .glfwWindowHint .GLFW_CONTEXT_VERSION_MAJOR (.int 3),
   .glfwWindowHint .GLFW_CONTEXT_VERSION_MINOR (.int 3),
   .glfwWindowHint .GLFW_OPENGL_PROFILE .GLFW_OPENGL_CORE_PROFILE] ++
  (if apple then [.glfwWindowHint .GLFW_OPENGL_FORWARD_COMPAT .GL_TRUE] else []) ++
  [.glfwCreateWindow 800 600 "Hekla - OpenGL Window",
   .glfwMakeContextCurrent,
   .glfwSetFramebufferSizeCallback,
   .gladLoadGLLoader]

/-- The four `glGetString` calls of lines 52-60. -/
def infoCalls : List Call :=
  [.glGetString .GL_VERSION,
   .glGetString .GL_SHADING_LANGUAGE_VERSION,
   .glGetString .GL_VENDOR,
   .glGetString .GL_RENDERER]

/-- The calls of lines 74-85. -/
def geometryCalls : List Call :=
  [.glGenVertexArrays 1,
   .glBindVertexArray 1,
   .glGenBuffers 1,
   .glBindBuffer .GL_ARRAY_BUFFER 1,
   .glBufferData .GL_ARRAY_BUFFER 48 (.floats vertices) .GL_STATIC_DRAW,
   .glGenBuffers 1,
   .glBindBuffer .GL_ELEMENT_ARRAY_BUFFER 2,
   .glBufferData .GL_ELEMENT_ARRAY_BUFFER 24 (.uints indices) .GL_STATIC_DRAW]

/-- The calls of lines 133-139. -/
def linkCalls : List Call :=
  [.glCreateProgram,
   .glAttachShader 3 1,
   .glAttachShader 3 2,
   .glLinkProgram 3,
   .glDeleteShader 1,
   .glDeleteShader 2]

/-- The calls of lines 141-145. -/
def layoutCalls : List Call :=
  [.glVertexAttribPointer 0 3 .GL_FLOAT false 12 0,
   .glEnableVertexAttribArray 0,
   .glBindVertexArray 0]

/-- The calls of lines 74-145, given the compile outcome of the vertex and fragment stage. -/
def setupCalls (cv cf : Bool) : List Call :=
  geometryCalls ++
  stageCalls .GL_VERTEX_SHADER 1 vertexShaderSource cv ++
  stageCalls .GL_FRAGMENT_SHADER 2 fragmentShaderSource cf ++
  linkCalls ++ layoutCalls

/-- The context after lines 74-85. -/
def geometryGL (width height : Nat) : GLState :=
  { GLState.initial width height with
    vertexArray := 1
    arrayBuffer := 1
    vaos := [⟨1, 2, [], []⟩]
    buffers := [⟨1, 48, .floats vertices, some .GL_STATIC_DRAW⟩,
                ⟨2, 24, .uints indices, some .GL_STATIC_DRAW⟩]
    nextVertexArray := 2
    nextBuffer := 3 }

/-- The context after the vertex stage (lines 95-110). -/
def vertexGL (width height : Nat) (cv : Bool) : GLState :=
  { geometryGL width height with
    shaders := [⟨1, .GL_VERTEX_SHADER, vertexShaderSource, cv, false⟩]
    nextShaderProgram := 2 }

/-- The context after the fragment stage (lines 120-131). -/
def fragmentGL (width height : Nat) (cv cf : Bool) : GLState :=
  { geometryGL width height with
    shaders := [⟨1, .GL_VERTEX_SHADER, vertexShaderSource, cv, false⟩,
                ⟨2, .GL_FRAGMENT_SHADER, fragmentShaderSource, cf, false⟩]
    nextShaderProgram := 3 }

/-- The context after lines 133-139. -/
def linkedGL (width height : Nat) (cv cf linkOk : Bool) : GLState :=
  { geometryGL width height with
    shaders := [⟨1, .GL_VERTEX_SHADER, vertexShaderSource, cv, true⟩,
                ⟨2, .GL_FRAGMENT_SHADER, fragmentShaderSource, cf, true⟩]
    programs := [⟨3, [1, 2], linkOk && (cv && cf)⟩]
    nextShaderProgram := 4 }

/-- The context when the render loop is first reached. -/
def entryGL (width height : Nat) (cv cf linkOk : Bool) : GLState :=
  { linkedGL width height cv cf linkOk with
    vertexArray := 0
    vaos := [⟨1, 2, [⟨0, 3, .GL_FLOAT, false, 12, 0, 1⟩], [0]⟩] }

/-- The error line of a stage whose compile failed: the info log as it fits the 512-character
buffer. -/
def stageLog (env : Env) (type : ShaderType) (message : String) : List LogLine :=
  if env.compiles type then []
  else [⟨.error, message, some (String.mk ((env.infoLog type).take 511))⟩]

/-- The four information lines of lines 52-60. -/
def infoLines (env : Env) : List LogLine :=
  [⟨.info, "OpenGL Version: \x7b\x7d", some (env.glString .GL_VERSION)⟩,
   ⟨.info, "GLSL Version: \x7b\x7d", some (env.glString .GL_SHADING_LANGUAGE_VERSION)⟩,
   ⟨.info, "Vendor: \x7b\x7d", some (env.glString .GL_VENDOR)⟩,
   ⟨.info, "Renderer: \x7b\x7d", some (env.glString .GL_RENDERER)⟩]

/-- The log lines written before the render loop is reached. -/
def entryOut (env : Env) : List LogLine :=
  infoLines env ++
  stageLog env .GL_VERTEX_SHADER "ERROR::SHADER::VERTEX::COMPILATION_FAILED\n\x7b\x7d" ++
  stageLog env .GL_FRAGMENT_SHADER "ERROR::SHADER::FRAGMENT::COMPILATION_FAILED\n\x7b\x7d"

/-- The current program after `glUseProgram(p)`. -/
def programAfterUse (programs : List Program) (current p : Nat) : Nat :=
  if p = 0 then 0
  else
    match programs.find? (fun q => q.name == p) with
    | some q => if q.linked then p else current
    | none => current

/-- The error flag after `glUseProgram(p)`. -/
def errorAfterUse (programs : List Program) (error : Option GLError) (p : Nat) :
    Option GLError :=
  if p = 0 then error
  else
    match programs.find? (fun q => q.name == p) with
    | some q => if q.linked then error else error.orElse (fun _ => some .GL_INVALID_OPERATION)
    | none => error.orElse (fun _ => some .GL_INVALID_VALUE)

/-- The conditions on the context at the head of the render loop under which a frame is drawn
from the vertex array `h.VAO`: the object exists and nothing is bound. -/
structure GLState.LoopHead (g : GLState) (h : Handles) : Prop where
  vao_pos : h.VAO ≠ 0
  vao_lt : h.VAO < g.nextVertexArray
  vao_ex : (g.findVAO h.VAO).isSome = true
  unbound : g.vertexArray = 0

/-- The objects of a context and the names it has handed out, apart from what is bound. -/
structure Objects where
  vaos : List VertexArray
  buffers : List Buffer
  shaders : List Shader
  programs : List Program
  nextVertexArray : Nat
  nextBuffer : Nat
  nextShaderProgram : Nat
  deriving DecidableEq, Repr

/-- The objects of a context. -/
def GLState.objects (g : GLState) : Objects :=
  ⟨g.vaos, g.buffers, g.shaders, g.programs, g.nextVertexArray, g.nextBuffer,
   g.nextShaderProgram⟩

/-- What holds of the world at every head of the render loop: the context is ready for a frame,
its objects are `o`, the resize callback is registered, and every draw so far was issued with
`h.VAO` bound over the objects `o`. -/
structure LoopInv (h : Handles) (o : Objects) (w : World) : Prop where
  head : w.gl.LoopHead h
  objects : w.gl.objects = o
  callback : w.win.resizeCallback = true
  draws : ∀ g ∈ w.drawStates, g.vertexArray = h.VAO ∧ g.objects = o

/-- The calls that the render loop makes: the loop test, the input poll, the six drawing
commands, the swap, the event poll and the `glViewport` of the resize callback. -/
def Call.inLoop : Call → Bool
  | .glfwWindowShouldClose => true
  | .glfwGetKey _ => true
  | .glfwSetWindowShouldClose _ => true
  | .glClearColor _ _ _ _ => true
  | .glClear _ => true
  | .glUseProgram _ => true
  | .glBindVertexArray _ => true
  | .glDrawElements _ _ _ _ => true
  | .glfwSwapBuffers => true
  | .glfwPollEvents => true
  | .glViewport _ _ _ _ => true
  | _ => false

/-- Whether a call reads a shader info log. -/
def Call.isInfoLog : Call → Bool
  | .glGetShaderInfoLog _ _ => true
  | _ => false

/-- The calls of `process_input` when the pressed keys are `pressed`. -/
def keyCalls (pressed : List Nat) : List Call :=
  if GLFW_KEY_ESCAPE ∈ pressed then
    [.glfwGetKey GLFW_KEY_ESCAPE, .glfwSetWindowShouldClose true]
  else [.glfwGetKey GLFW_KEY_ESCAPE]

/-- The calls of one iteration of the render loop, with the resize callback registered. -/
def bodyCalls (h : Handles) (events : List Event) (pressed : List Nat) : List Call :=
  keyCalls pressed ++ frameCalls h ++ [.glfwSwapBuffers, .glfwPollEvents] ++ resizeCalls events

/-- The calls of the render loop from a window whose close flag is `close` and whose pressed
keys are `pressed`, with the resize callback registered. -/
def loopCalls (h : Handles) : List (List Event) → Bool → List Nat → List Call
  | [], _, _ => [.glfwWindowShouldClose]
  | events :: rest, close, pressed =>
    if close then [.glfwWindowShouldClose]
    else
      .glfwWindowShouldClose :: bodyCalls h events pressed ++
        loopCalls h rest (decide (GLFW_KEY_ESCAPE ∈ pressed) || closeRequested events)
          (keysAfter pressed events)

/-- Whether the render loop ends on the given events. -/
def loopEnds : List (List Event) → Bool → List Nat → Bool
  | [], close, _ => close
  | events :: rest, close, pressed =>
    if close then true
    else loopEnds rest (decide (GLFW_KEY_ESCAPE ∈ pressed) || closeRequested events)
           (keysAfter pressed events)

/-- Number of iterations of the render loop on the given events. -/
def loopCount : List (List Event) → Bool → List Nat → Nat
  | [], _, _ => 0
  | events :: rest, close, pressed =>
    if close then 0
    else loopCount rest (decide (GLFW_KEY_ESCAPE ∈ pressed) || closeRequested events)
           (keysAfter pressed events) + 1

/-- An environment in which everything succeeds and the window is closed by a close request
during the first frame. -/
def envClose : Env := { env0 with polls := [[.closeRequested]] }

/-- A world in which the escape key is held down. -/
def wEscape : World :=
  { World.start with win := { World.start.win with pressed := [GLFW_KEY_ESCAPE] } }

/-- The calls issued between two worlds of one execution. -/
def issued (before after : World) : List Call :=
  after.trace.drop before.trace.length

/-- The environment that differs from `env` only in that both shaders compile. -/
def Env.allCompile (env : Env) : Env :=
  { env with compiles := fun _ => true }

/-- The number of stages whose compile fails. -/
def Env.failedStages (env : Env) : Nat :=
  (if env.compiles .GL_VERTEX_SHADER then 0 else 1) +
  (if env.compiles .GL_FRAGMENT_SHADER then 0 else 1)

/-- The object-building calls of `main`, in order: each of the vertex array, the two buffers
and the program is generated once, filled or described once. -/
def buildCalls : List Call :=
  [.glGenVertexArrays 1,
   .glGenBuffers 1,
   .glBufferData .GL_ARRAY_BUFFER 48 (.floats vertices) .GL_STATIC_DRAW,
   .glGenBuffers 1,
   .glBufferData .GL_ELEMENT_ARRAY_BUFFER 24 (.uints indices) .GL_STATIC_DRAW,
   .glCreateShader .GL_VERTEX_SHADER,
   .glShaderSource 1 1 vertexShaderSource,
   .glCompileShader 1,
   .glCreateShader .GL_FRAGMENT_SHADER,
   .glShaderSource 2 1 fragmentShaderSource,
   .glCompileShader 2,
   .glCreateProgram,
   .glAttachShader 3 1,
   .glAttachShader 3 2,
   .glLinkProgram 3,
   .glDeleteShader 1,
   .glDeleteShader 2,
   .glVertexAttribPointer 0 3 .GL_FLOAT false 12 0,
   .glEnableVertexAttribArray 0]

/-- The world in which the second iteration of the render loop of `main env0` starts: the
first iteration has delivered the press of the escape key. -/
def wSecond : World :=
  (glfwWindowShouldClose
    (loop_head env0 [[.framebufferSize 640 480, .key GLFW_KEY_ESCAPE .GLFW_PRESS]])).2

/-- Whether a call is a `glBindBuffer`. -/
def Call.bindsBuffer : Call → Bool
  | .glBindBuffer _ _ => true
  | _ => false

/-- Whether a call binds a vertex array or a buffer. -/
def Call.binds : Call → Bool
  | .glBindVertexArray _ => true
  | .glBindBuffer _ _ => true
  | _ => false

/-! ## Lemmas: the stages of the setup, evaluated -/

/-- Lines 74-85 from the initial context: the names are 1, 1 and 2. -/
theorem setup_geometry_eq (a b : Nat) (win : Window) (t : List Call) (o : List LogLine)
    (d : List GLState) :
    setup_geometry ⟨win, GLState.initial a b, t, o, d⟩ =
      ((1, 1, 2), ⟨win, geometryGL a b, t ++ geometryCalls, o, d⟩) := by
  simp [setup_geometry, glGenVertexArrays, glBindVertexArray, glGenBuffers, glBindBuffer,
    glBufferData, World.command, GLState.initial, GLState.glGenVertexArrays,
    GLState.glBindVertexArray, GLState.glGenBuffers, GLState.glBindBuffer,
    GLState.glBufferData, GLState.findVAO, GLState.findBuffer, GLState.boundVAO,
    GLState.boundBuffer, GLState.modifyBoundVAO, GLState.raise, List.range', geometryGL,
    geometryCalls, sizeof_float, sizeof_uint, vertices, indices]

/-- The vertex stage (lines 95-110) from the context left by lines 74-85. -/
theorem compile_vertex_eq (env : Env) (a b : Nat) (win : Window) (t : List Call)
    (o : List LogLine) (d : List GLState) (message : String) :
    compile_stage env .GL_VERTEX_SHADER vertexShaderSource message
        ⟨win, geometryGL a b, t, o, d⟩ =
      (1, ⟨win, vertexGL a b (env.compiles .GL_VERTEX_SHADER),
           t ++ stageCalls .GL_VERTEX_SHADER 1 vertexShaderSource
                  (env.compiles .GL_VERTEX_SHADER),
           o ++ stageLog env .GL_VERTEX_SHADER message, d⟩) := by
  cases hv : env.compiles .GL_VERTEX_SHADER <;>
  simp [compile_stage, glCreateShader, glShaderSource, glCompileShader, glGetShaderiv,
    glGetShaderInfoLog, spdlog_error, World.command, World.call, geometryGL, GLState.initial,
    vertexGL, GLState.glCreateShader, GLState.glShaderSource, GLState.glCompileShader,
    GLState.isCompiled, GLState.findShader, stageCalls, stageLog, hv]

/-- The fragment stage (lines 120-131) from the context left by the vertex stage. -/
theorem compile_fragment_eq (env : Env) (a b : Nat) (cv : Bool) (win : Window)
    (t : List Call) (o : List LogLine) (d : List GLState) (message : String) :
    compile_stage env .GL_FRAGMENT_SHADER fragmentShaderSource message
        ⟨win, vertexGL a b cv, t, o, d⟩ =
      (2, ⟨win, fragmentGL a b cv (env.compiles .GL_FRAGMENT_SHADER),
           t ++ stageCalls .GL_FRAGMENT_SHADER 2 fragmentShaderSource
                  (env.compiles .GL_FRAGMENT_SHADER),
           o ++ stageLog env .GL_FRAGMENT_SHADER message, d⟩) := by
  cases hf : env.compiles .GL_FRAGMENT_SHADER <;>
  simp [compile_stage, glCreateShader, glShaderSource, glCompileShader, glGetShaderiv,
    glGetShaderInfoLog, spdlog_error, World.command, World.call, geometryGL, GLState.initial,
    vertexGL, fragmentGL, GLState.glCreateShader, GLState.glShaderSource,
    GLState.glCompileShader, GLState.isCompiled, GLState.findShader, stageCalls, stageLog, hf]

/-- Lines 133-139 from the context left by the two stages. -/
theorem link_program_eq (env : Env) (a b : Nat) (cv cf : Bool) (win : Window)
    (t : List Call) (o : List LogLine) (d : List GLState) :
    link_program env 1 2 ⟨win, fragmentGL a b cv cf, t, o, d⟩ =
      (3, ⟨win, linkedGL a b cv cf env.linkOk, t ++ linkCalls, o, d⟩) := by
  cases cv <;> cases cf <;>
  simp [link_program, glCreateProgram, glAttachShader, glLinkProgram, glDeleteShader,
    World.command, geometryGL, GLState.initial, fragmentGL, linkedGL, GLState.glCreateProgram,
    GLState.glAttachShader, GLState.glLinkProgram, GLState.glDeleteShader, GLState.isCompiled,
    GLState.findShader, linkCalls]

/-- Lines 141-145 from the context left by the link. -/
theorem setup_layout_eq (a b : Nat) (cv cf lk : Bool) (win : Window)
    (t : List Call) (o : List LogLine) (d : List GLState) :
    setup_layout ⟨win, linkedGL a b cv cf lk, t, o, d⟩ =
      ⟨win, entryGL a b cv cf lk, t ++ layoutCalls, o, d⟩ := by
  simp [setup_layout, glVertexAttribPointer, glEnableVertexAttribArray, glBindVertexArray,
    World.command, geometryGL, GLState.initial, linkedGL, entryGL,
    GLState.glVertexAttribPointer, GLState.glEnableVertexAttribArray,
    GLState.glBindVertexArray, GLState.boundVAO, GLState.findVAO, GLState.modifyBoundVAO,
    layoutCalls, sizeof_float]

/-- The whole setup from the initial context. -/
theorem setup_eq (env : Env) (a b : Nat) (win : Window) (t : List Call) (o : List LogLine)
    (d : List GLState) :
    setup env ⟨win, GLState.initial a b, t, o, d⟩ =
      (⟨1, 1, 2, 3⟩,
       ⟨win,
        entryGL a b (env.compiles .GL_VERTEX_SHADER) (env.compiles .GL_FRAGMENT_SHADER)
          env.linkOk,
        t ++ setupCalls (env.compiles .GL_VERTEX_SHADER) (env.compiles .GL_FRAGMENT_SHADER),
        o ++ stageLog env .GL_VERTEX_SHADER "ERROR::SHADER::VERTEX::COMPILATION_FAILED\n\x7b\x7d"
          ++ stageLog env .GL_FRAGMENT_SHADER
               "ERROR::SHADER::FRAGMENT::COMPILATION_FAILED\n\x7b\x7d",
        d⟩) := by
  simp only [setup, setup_geometry_eq, compile_vertex_eq, compile_fragment_eq, link_program_eq,
    setup_layout_eq, setupCalls, List.append_assoc]

/-- Lines 24-60 on the path where the window is created. -/
theorem startup_eq (env : Env) (hw : env.windowCreated = true) :
    print_info env
        (gladLoadGLLoader env
          (glfwSetFramebufferSizeCallback
            (glfwMakeContextCurrent env
              (glfwCreateWindow env SCR_WIDTH SCR_HEIGHT "Hekla - OpenGL Window"
                (init_glfw env World.start)).2))).2 =
      ⟨⟨true, true, true, false, [], []⟩,
       GLState.initial env.framebufferWidth env.framebufferHeight,
       startupCalls env.apple ++ infoCalls, infoLines env, []⟩ := by
  cases ha : env.apple <;>
  simp [print_info, gladLoadGLLoader, glfwSetFramebufferSizeCallback, glfwMakeContextCurrent,
    glfwCreateWindow, init_glfw, glfwInit, glfwWindowHint, glGetString, spdlog_info,
    World.call, World.start, startupCalls, infoCalls, infoLines, SCR_WIDTH, SCR_HEIGHT, hw, ha]

/-- The handles and the world with which the render loop is entered. -/
theorem loop_entry_eq (env : Env) (hw : env.windowCreated = true) :
    loop_entry env =
      (⟨1, 1, 2, 3⟩,
       ⟨⟨true, true, true, false, [], []⟩,
        entryGL env.framebufferWidth env.framebufferHeight (env.compiles .GL_VERTEX_SHADER)
          (env.compiles .GL_FRAGMENT_SHADER) env.linkOk,
        startupCalls env.apple ++ infoCalls ++
          setupCalls (env.compiles .GL_VERTEX_SHADER) (env.compiles .GL_FRAGMENT_SHADER),
        entryOut env, []⟩) := by
  unfold loop_entry
  simp only [startup_eq env hw, setup_eq, entryOut, List.append_assoc]

/-! ## Lemmas: one iteration of the render loop -/

/-- The effect of `process_input`. -/
theorem process_input_eq (w : World) :
    process_input w =
      { w with
        trace := w.trace ++ inputCalls w
        win := { w.win with
                 shouldClose := w.win.shouldClose || decide (GLFW_KEY_ESCAPE ∈ w.win.pressed) } } := by
  unfold process_input inputCalls
  by_cases h : GLFW_KEY_ESCAPE ∈ w.win.pressed
  · simp [glfwGetKey, glfwSetWindowShouldClose, World.call, h]
  · simp [glfwGetKey, glfwSetWindowShouldClose, World.call, h]

/-- The effect of the six drawing commands. -/
theorem draw_frame_eq (h : Handles) (w : World) :
    draw_frame h w =
      { w with
        trace := w.trace ++ frameCalls h
        gl := w.gl.frame h
        drawStates := w.drawStates ++ [w.gl.atDraw h] } := by
  simp [draw_frame, frameCalls, glClearColor, glClear, glUseProgram, glBindVertexArray,
    glDrawElements, World.command, GLState.frame, GLState.atDraw]

/-- The effect of `glViewport` on sizes that are not negative. -/
theorem glViewport_nat (g : GLState) (W H : Nat) :
    g.glViewport 0 0 W H = { g with viewport := ⟨0, 0, W, H⟩ } := by
  have : ¬ ((W : Int) < 0 ∨ (H : Int) < 0) := by omega
  simp [GLState.glViewport, this]

/-- The effect of delivering one event. -/
theorem deliver_eq (w : World) (e : Event) :
    deliver w e =
      { w with
        trace := w.trace ++ (if w.win.resizeCallback then resizeCalls [e] else [])
        gl := { w.gl with
                viewport := if w.win.resizeCallback then resizedViewport w.gl.viewport [e]
                            else w.gl.viewport }
        win := { w.win with
                 shouldClose := w.win.shouldClose || closeRequested [e]
                 pressed := keysAfter w.win.pressed [e] } } := by
  cases e with
  | key k a => cases a <;> simp [deliver, resizeCalls, resizedViewport, keysAfter, closeRequested]
  | closeRequested => simp [deliver, resizeCalls, resizedViewport, keysAfter, closeRequested]
  | framebufferSize W H =>
    obtain ⟨⟨c, cc, rc, sc, pr, ps⟩, g, t, o, d⟩ := w
    cases rc <;>
      simp [deliver, resizeCalls, resizedViewport, keysAfter, closeRequested,
        framebuffer_size_callback, glViewport, World.command, glViewport_nat]

/-- The effect of delivering a list of events. -/
theorem pollEvents_fold (events : List Event) (w : World) :
    events.foldl deliver w =
      { w with
        trace := w.trace ++ (if w.win.resizeCallback then resizeCalls events else [])
        gl := { w.gl with
                viewport := if w.win.resizeCallback then resizedViewport w.gl.viewport events
                            else w.gl.viewport }
        win := { w.win with
                 shouldClose := w.win.shouldClose || closeRequested events
                 pressed := keysAfter w.win.pressed events } } := by
  induction events generalizing w with
  | nil => simp [resizeCalls, resizedViewport, keysAfter, closeRequested]
  | cons e rest ih =>
    rw [List.foldl_cons, ih, deliver_eq]
    obtain ⟨⟨c, cc, rc, sc, pr, ps⟩, g, t, o, d⟩ := w
    cases e with
    | key k a =>
      cases a <;> cases rc <;>
        simp [resizeCalls, resizedViewport, keysAfter, closeRequested]
    | closeRequested =>
      cases rc <;> simp [resizeCalls, resizedViewport, keysAfter, closeRequested]
    | framebufferSize W H =>
      cases rc <;> simp [resizeCalls, resizedViewport, keysAfter, closeRequested]

/-- The effect of one iteration of the render loop. -/
theorem loop_body_eq (h : Handles) (events : List Event) (w : World) :
    loop_body h events w =
      { trace := w.trace ++ inputCalls w ++ frameCalls h ++
          [.glfwSwapBuffers, .glfwPollEvents] ++
          (if w.win.resizeCallback then resizeCalls events else [])
        gl := { w.gl.frame h with
                viewport := if w.win.resizeCallback then
                              resizedViewport (w.gl.frame h).viewport events
                            else (w.gl.frame h).viewport }
        win := { w.win with
                 shouldClose := w.win.shouldClose || decide (GLFW_KEY_ESCAPE ∈ w.win.pressed) ||
                   closeRequested events
                 pressed := keysAfter w.win.pressed events
                 presented := w.win.presented ++ [(w.gl.frame h).backBuffer] }
        out := w.out
        drawStates := w.drawStates ++ [w.gl.atDraw h] } := by
  simp [loop_body, glfwPollEvents, pollEvents_fold, glfwSwapBuffers, World.call, draw_frame_eq,
    process_input_eq]

/-- The command `glUseProgram` changes the current program and the error flag only. -/
theorem glUseProgram_eq (g : GLState) (p : Nat) :
    g.glUseProgram p =
      { g with program := programAfterUse g.programs g.program p
               error := errorAfterUse g.programs g.error p } := by
  unfold GLState.glUseProgram programAfterUse errorAfterUse
  by_cases hp : p = 0
  · simp [hp]
  · cases hf : List.find? (fun q => q.name == p) g.programs with
    | none => simp [hp, hf, GLState.raise]
    | some q => cases hl : q.linked <;> simp [hp, hf, hl, GLState.raise]

/-- The context in which the draw call of a frame is issued, from a loop head. -/
theorem atDraw_eq (g : GLState) (h : Handles) (hg : g.LoopHead h) :
    g.atDraw h =
      { g with
        clearColor := ⟨⟨2⟩, ⟨3⟩, ⟨3⟩, ⟨10⟩⟩
        backBuffer := ⟨some ⟨⟨2⟩, ⟨3⟩, ⟨3⟩, ⟨10⟩⟩, []⟩
        program := programAfterUse g.programs g.program h.shaderProgram
        error := errorAfterUse g.programs g.error h.shaderProgram
        vertexArray := h.VAO } := by
  have h1 := hg.vao_pos
  have h2 := hg.vao_lt
  have h3 := hg.vao_ex
  simp only [GLState.findVAO] at h3
  simp [GLState.atDraw, GLState.glClear, GLState.glClearColor, glUseProgram_eq,
    GLState.glBindVertexArray, GLState.findVAO, h1, h2, h3]

/-- The context after the six drawing commands, from a loop head. -/
theorem frame_eq (g : GLState) (h : Handles) (hg : g.LoopHead h) :
    g.frame h =
      { g with
        clearColor := ⟨⟨2⟩, ⟨3⟩, ⟨3⟩, ⟨10⟩⟩
        backBuffer := ⟨some ⟨⟨2⟩, ⟨3⟩, ⟨3⟩, ⟨10⟩⟩, [(g.atDraw h).drawRecord .GL_TRIANGLES 6 0]⟩
        program := programAfterUse g.programs g.program h.shaderProgram
        error := errorAfterUse g.programs g.error h.shaderProgram
        vertexArray := 0 } := by
  unfold GLState.frame
  simp [atDraw_eq g h hg, GLState.glDrawElements, GLState.glBindVertexArray]

/-- One iteration preserves the loop invariant. -/
theorem loop_body_inv (h : Handles) (o : Objects) (events : List Event) (w : World)
    (hw : LoopInv h o w) : LoopInv h o (loop_body h events w) := by
  obtain ⟨hh, ho, hc, hd⟩ := hw
  rw [loop_body_eq]
  refine ⟨?_, ?_, ?_, ?_⟩
  · have h1 := hh.vao_pos
    have h2 := hh.vao_lt
    have h3 := hh.vao_ex
    simp only [GLState.findVAO] at h3
    constructor <;> simp [frame_eq _ _ hh, GLState.findVAO, h1, h2, h3]
  · simp [frame_eq _ _ hh, GLState.objects, ← ho]
  · simpa using hc
  · intro g hg
    simp only [List.mem_append, List.mem_singleton] at hg
    rcases hg with hg | hg
    · exact hd g hg
    · subst hg
      simp [atDraw_eq _ _ hh, GLState.objects, ← ho]

/-- The loop test preserves the loop invariant. -/
theorem shouldClose_inv (h : Handles) (o : Objects) (w : World) (hw : LoopInv h o w) :
    LoopInv h o (glfwWindowShouldClose w).2 := by
  obtain ⟨hh, ho, hc, hd⟩ := hw
  exact ⟨⟨hh.vao_pos, hh.vao_lt, hh.vao_ex, hh.unbound⟩, ho, hc, hd⟩

/-- The render loop preserves the loop invariant. -/
theorem render_loop_inv (h : Handles) (o : Objects) (polls : List (List Event)) (w : World)
    (hw : LoopInv h o w) : LoopInv h o (render_loop h polls w).2 := by
  induction polls generalizing w with
  | nil => exact shouldClose_inv h o w hw
  | cons events rest ih =>
    unfold render_loop
    by_cases hc : (glfwWindowShouldClose w).1 = true
    · simp only [hc, if_true]
      exact shouldClose_inv h o w hw
    · simp only [hc, if_false]
      exact ih _ (loop_body_inv h o events _ (shouldClose_inv h o w hw))

/-! ## Lemmas: the render loop and `main` in closed form -/

/-- The calls, the ending, the number of iterations and the log of the render loop depend on
the window only. -/
theorem render_loop_calls (h : Handles) (polls : List (List Event)) (w : World)
    (hc : w.win.resizeCallback = true) :
    (render_loop h polls w).2.trace =
        w.trace ++ loopCalls h polls w.win.shouldClose w.win.pressed ∧
    (render_loop h polls w).1 = loopEnds polls w.win.shouldClose w.win.pressed ∧
    loop_iterations h polls w = loopCount polls w.win.shouldClose w.win.pressed ∧
    (render_loop h polls w).2.out = w.out := by
  induction polls generalizing w with
  | nil => simp [render_loop, glfwWindowShouldClose, World.call, loopCalls, loopEnds,
      loop_iterations, loopCount]
  | cons events rest ih =>
    unfold render_loop loop_iterations loopCalls loopEnds loopCount
    cases hs : w.win.shouldClose with
    | true => simp [glfwWindowShouldClose, World.call, hs]
    | false =>
      have hc2 : (loop_body h events (glfwWindowShouldClose w).2).win.resizeCallback = true := by
        rw [loop_body_eq]; simpa [glfwWindowShouldClose, World.call] using hc
      obtain ⟨i1, i2, i3, i4⟩ := ih (loop_body h events (glfwWindowShouldClose w).2) hc2
      simp only [glfwWindowShouldClose, hs, Bool.false_eq_true, if_false] at i1 i2 i3 i4 ⊢
      rw [i1, i2, i3, i4]
      simp [loop_body_eq, World.call, hs, hc, bodyCalls, inputCalls, keyCalls]

/-- The path of `main` on which the window is created and the loader succeeds. -/
theorem main_ok (env : Env) (hw : env.windowCreated = true) (hl : env.loaderOk = true) :
    main env =
      if (render_loop (loop_entry env).1 env.polls (loop_entry env).2).1 then
        (some 0, glfwTerminate (render_loop (loop_entry env).1 env.polls (loop_entry env).2).2)
      else (none, (render_loop (loop_entry env).1 env.polls (loop_entry env).2).2) := by
  unfold main loop_entry
  simp [glfwCreateWindow, gladLoadGLLoader, hw, hl]

/-- The path of `main` on which window creation fails. -/
theorem main_no_window (env : Env) (hw : env.windowCreated = false) :
    main env =
      (some (-1),
       ⟨⟨false, false, false, false, [], []⟩, GLState.initial 0 0,
        [.glfwInit,
         .glfwWindowHint .GLFW_CONTEXT_VERSION_MAJOR (.int 3),
         .glfwWindowHint .GLFW_CONTEXT_VERSION_MINOR (.int 3),
         .glfwWindowHint .GLFW_OPENGL_PROFILE .GLFW_OPENGL_CORE_PROFILE] ++
        (if env.apple then [.glfwWindowHint .GLFW_OPENGL_FORWARD_COMPAT .GL_TRUE] else []) ++
        [.glfwCreateWindow 800 600 "Hekla - OpenGL Window", .glfwTerminate],
        [⟨.error, "Failed to create GLFW window", none⟩], []⟩) := by
  cases ha : env.apple <;>
  simp [main, glfwCreateWindow, glfwTerminate, spdlog_error, init_glfw, glfwInit,
    glfwWindowHint, World.call, World.start, SCR_WIDTH, SCR_HEIGHT, hw, ha]

/-- The path of `main` on which the loader fails. -/
theorem main_no_loader (env : Env) (hw : env.windowCreated = true)
    (hl : env.loaderOk = false) :
    main env =
      (some (-1),
       ⟨⟨true, true, true, false, [], []⟩,
        GLState.initial env.framebufferWidth env.framebufferHeight,
        startupCalls env.apple,
        [⟨.error, "Failed to initialize GLAD", none⟩], []⟩) := by
  cases ha : env.apple <;>
  simp [main, glfwCreateWindow, gladLoadGLLoader, glfwMakeContextCurrent,
    glfwSetFramebufferSizeCallback, spdlog_error, init_glfw, glfwInit,
    glfwWindowHint, World.call, World.start, startupCalls, SCR_WIDTH, SCR_HEIGHT, hw, hl, ha]

/-- A loop tested with the close flag set ends. -/
theorem loopEnds_closed (polls : List (List Event)) (pressed : List Nat) :
    loopEnds polls true pressed = true := by
  cases polls <;> simp [loopEnds]

/-- A loop that receives a close request ends. -/
theorem loopEnds_of_close (polls : List (List Event)) (close : Bool) (pressed : List Nat)
    (h : ∃ events ∈ polls, closeRequested events = true) :
    loopEnds polls close pressed = true := by
  induction polls generalizing close pressed with
  | nil => simp at h
  | cons events rest ih =>
    unfold loopEnds
    cases close with
    | true => simp
    | false =>
      simp only [Bool.false_eq_true, if_false]
      obtain ⟨e, he, hce⟩ := h
      rcases List.mem_cons.mp he with rfl | he
      · rw [hce, Bool.or_true]
        exact loopEnds_closed _ _
      · exact ih _ _ ⟨e, he, hce⟩

/-- The loop has ended exactly when the close flag of the world reached is set. -/
theorem render_loop_flag (h : Handles) (polls : List (List Event)) (w : World) :
    (render_loop h polls w).2.win.shouldClose = (render_loop h polls w).1 := by
  induction polls generalizing w with
  | nil => simp [render_loop, glfwWindowShouldClose, World.call]
  | cons events rest ih =>
    unfold render_loop
    cases hs : w.win.shouldClose with
    | true => simp [glfwWindowShouldClose, World.call, hs]
    | false =>
      simp only [glfwWindowShouldClose, hs, Bool.false_eq_true, if_false]
      exact ih _

/-- An element satisfying `P` in `l1 ++ l2` lies after `l1` when nothing in `l1` satisfies `P`. -/
theorem split_after {α : Type} (P : α → Bool) (l1 l2 pre post : List α) (c : α)
    (hP : ∀ x ∈ l1, P x = false) (hc : P c = true) (h : l1 ++ l2 = pre ++ c :: post) :
    ∃ t, pre = l1 ++ t := by
  induction l1 generalizing pre with
  | nil => exact ⟨pre, rfl⟩
  | cons a l1 ih =>
    cases pre with
    | nil =>
      simp only [List.cons_append, List.nil_append, List.cons.injEq] at h
      have := hP a (List.mem_cons_self a l1)
      rw [h.1, hc] at this
      exact absurd this (by simp)
    | cons b pre =>
      simp only [List.cons_append, List.cons.injEq] at h
      obtain ⟨t, ht⟩ := ih pre (fun x hx => hP x (List.mem_cons_of_mem a hx)) h.2
      exact ⟨t, by rw [h.1, ht]; rfl⟩

/-- The start-up makes no OpenGL call. -/
theorem startupCalls_not_gl (apple : Bool) : ∀ c ∈ startupCalls apple, c.isGL = false := by
  cases apple <;> simp [startupCalls, Call.isGL]

/-- Without resize events the callback makes no call. -/
theorem noResize_calls (events : List Event) (h : noResize events = true) :
    resizeCalls events = [] := by
  induction events with
  | nil => rfl
  | cons e es ih =>
    cases e <;> simp [noResize, resizeCalls] at h ⊢ <;> exact ih (by simpa [noResize] using h)

/-- Without resize events the viewport stays. -/
theorem noResize_viewport (events : List Event) (v : Viewport) (h : noResize events = true) :
    resizedViewport v events = v := by
  induction events with
  | nil => rfl
  | cons e es ih =>
    cases e <;> simp [noResize, resizedViewport] at h ⊢ <;>
      exact ih (by simpa [noResize] using h)

/-- The resize callback does not draw. -/
theorem resizeCalls_draws (events : List Event) :
    (resizeCalls events).countP Call.isDraw = 0 := by
  induction events with
  | nil => rfl
  | cons e es ih =>
    cases e with
    | key k a => simpa only [resizeCalls] using ih
    | closeRequested => simpa only [resizeCalls] using ih
    | framebufferSize W H =>
      rw [resizeCalls, List.countP_cons, ih]
      rfl

/-- One iteration issues one draw call. -/
theorem bodyCalls_draws (h : Handles) (events : List Event) (pressed : List Nat) :
    (bodyCalls h events pressed).countP Call.isDraw = 1 := by
  have hk : (keyCalls pressed).countP Call.isDraw = 0 := by
    unfold keyCalls
    split <;> simp [Call.isDraw, List.countP_cons]
  simp [bodyCalls, List.countP_append, hk, resizeCalls_draws, frameCalls, Call.isDraw,
    List.countP_cons]

/-- The loop issues one draw call per iteration. -/
theorem loopCalls_draws (h : Handles) (polls : List (List Event)) (close : Bool)
    (pressed : List Nat) :
    (loopCalls h polls close pressed).countP Call.isDraw = loopCount polls close pressed := by
  induction polls generalizing close pressed with
  | nil => simp [loopCalls, loopCount, Call.isDraw, List.countP_cons]
  | cons events rest ih =>
    unfold loopCalls loopCount
    cases close with
    | true => simp [Call.isDraw, List.countP_cons]
    | false =>
      simp only [Bool.false_eq_true, if_false, List.countP_cons, List.countP_append,
        bodyCalls_draws, ih]
      simp [Call.isDraw]
      omega

/-- The loop invariant holds when the loop is entered. -/
theorem entry_inv (env : Env) (hw : env.windowCreated = true) :
    LoopInv (loop_entry env).1 (loop_entry env).2.gl.objects (loop_entry env).2 := by
  rw [loop_entry_eq env hw]
  refine ⟨⟨?_, ?_, ?_, ?_⟩, rfl, rfl, ?_⟩ <;>
    simp [entryGL, linkedGL, geometryGL, GLState.initial, GLState.findVAO]

/-- Any number of iterations preserves the loop invariant. -/
theorem loop_steps_inv (h : Handles) (o : Objects) (polls : List (List Event)) (w : World)
    (hw : LoopInv h o w) :
    LoopInv h o
      (polls.foldl (fun w events => loop_body h events (glfwWindowShouldClose w).2) w) := by
  induction polls generalizing w with
  | nil => exact hw
  | cons events rest ih =>
    rw [List.foldl_cons]
    exact ih _ (loop_body_inv h o events _ (shouldClose_inv h o w hw))

/-- The loop invariant holds at every loop head. -/
theorem loop_head_inv (env : Env) (hw : env.windowCreated = true)
    (polls : List (List Event)) :
    LoopInv (loop_entry env).1 (loop_entry env).2.gl.objects (loop_head env polls) :=
  loop_steps_inv _ _ polls _ (entry_inv env hw)

/-- After `n` iterations `n` more draw calls have been issued. -/
theorem loop_steps_draws (h : Handles) (polls : List (List Event)) (w : World)
    (hc : w.win.resizeCallback = true) :
    (polls.foldl (fun w events => loop_body h events (glfwWindowShouldClose w).2)
        w).trace.countP Call.isDraw = w.trace.countP Call.isDraw + polls.length := by
  induction polls generalizing w with
  | nil => simp
  | cons events rest ih =>
    rw [List.foldl_cons, ih]
    · have hb := bodyCalls_draws h events w.win.pressed
      simp only [bodyCalls, keyCalls] at hb
      simp only [loop_body_eq, glfwWindowShouldClose, World.call, hc, if_true, inputCalls,
        List.countP_append, List.length_cons]
      simp only [List.countP_append] at hb
      simp [Call.isDraw, List.countP_cons] at hb ⊢
      omega
    · rw [loop_body_eq]
      simpa [glfwWindowShouldClose, World.call] using hc

/-- Using the same program twice gives the same current program as using it once. -/
theorem programAfterUse_idem (ps : List Program) (cur p : Nat) :
    programAfterUse ps (programAfterUse ps cur p) p = programAfterUse ps cur p := by
  unfold programAfterUse
  by_cases hp : p = 0
  · simp [hp]
  · cases hf : List.find? (fun q => q.name == p) ps with
    | none => simp [hp]
    | some q => cases hl : q.linked <;> simp [hp, hl]

/-- Using the same program twice gives the same error flag as using it once. -/
theorem errorAfterUse_idem (ps : List Program) (e : Option GLError) (p : Nat) :
    errorAfterUse ps (errorAfterUse ps e p) p = errorAfterUse ps e p := by
  unfold errorAfterUse
  by_cases hp : p = 0
  · simp [hp]
  · cases hf : List.find? (fun q => q.name == p) ps with
    | none => cases e <;> simp [hp, Option.orElse]
    | some q => cases hl : q.linked <;> cases e <;> simp [hp, hl, Option.orElse]

/-- Two iterations in succession without a resize leave the context of one and present its
frame twice. -/
theorem loop_body_twice (h : Handles) (o : Objects) (w : World) (e1 e2 : List Event)
    (hw : LoopInv h o w) (h1 : noResize e1 = true) (h2 : noResize e2 = true) :
    (loop_body h e2 (loop_body h e1 w)).gl = (loop_body h e1 w).gl ∧
    (loop_body h e2 (loop_body h e1 w)).win.presented =
      w.win.presented ++ [(loop_body h e1 w).gl.backBuffer, (loop_body h e1 w).gl.backBuffer] := by
  have hw1 := loop_body_inv h o e1 w hw
  have hh := hw.head
  have hh1 := hw1.head
  have hc := hw.callback
  have hc1 := hw1.callback
  have key : ((loop_body h e1 w).gl.frame h) = (loop_body h e1 w).gl := by
    rw [frame_eq _ _ hh1, atDraw_eq _ _ hh1]
    simp only [loop_body_eq, hc, if_true, noResize_viewport _ _ h1]
    simp [frame_eq _ _ hh, atDraw_eq _ _ hh, GLState.drawRecord, GLState.fetchIndices,
      GLState.boundVAO, GLState.findVAO, GLState.findBuffer, programAfterUse_idem,
      errorAfterUse_idem]
  constructor
  · rw [loop_body_eq h e2]
    simp only [hc1, if_true, noResize_viewport _ _ h2, key]
  · rw [loop_body_eq h e2]
    simp only [key]
    simp [loop_body_eq h e1]

/-- No draw call is issued before the loop. -/
theorem entry_trace_draws (apple cv cf : Bool) :
    (startupCalls apple ++ infoCalls ++ setupCalls cv cf).countP Call.isDraw = 0 := by
  cases apple <;> cases cv <;> cases cf <;> decide

/-- The object-building calls issued before the loop. -/
theorem entry_trace_builds (apple cv cf : Bool) :
    (startupCalls apple ++ infoCalls ++ setupCalls cv cf).filter Call.buildsObject =
      buildCalls := by
  cases apple <;> cases cv <;> cases cf <;> decide

/-- Apart from the reading of the info logs, the calls before the loop do not depend on the
compile outcomes. -/
theorem entry_trace_logs (apple cv cf : Bool) :
    (startupCalls apple ++ infoCalls ++ setupCalls cv cf).filter (fun c => !c.isInfoLog) =
      startupCalls apple ++ infoCalls ++ setupCalls true true := by
  cases apple <;> cases cv <;> cases cf <;> decide

/-- One info log is read per failed stage. -/
theorem entry_trace_log_count (apple cv cf : Bool) :
    (startupCalls apple ++ infoCalls ++ setupCalls cv cf).countP Call.isInfoLog =
      (if cv then 0 else 1) + (if cf then 0 else 1) := by
  cases apple <;> cases cv <;> cases cf <;> decide

/-- One context state is recorded per iteration. -/
theorem render_loop_drawStates (h : Handles) (polls : List (List Event)) (w : World) :
    (render_loop h polls w).2.drawStates.length =
      w.drawStates.length + loopCount polls w.win.shouldClose w.win.pressed := by
  induction polls generalizing w with
  | nil => simp [render_loop, glfwWindowShouldClose, World.call, loopCount]
  | cons events rest ih =>
    unfold render_loop loopCount
    cases hs : w.win.shouldClose with
    | true => simp [glfwWindowShouldClose, World.call, hs]
    | false =>
      simp only [glfwWindowShouldClose, hs, Bool.false_eq_true, if_false]
      rw [ih]
      simp [loop_body_eq, World.call, hs]
      omega

/-- The trace, the exit code and the log of a `main` that reaches the render loop. -/
theorem main_trace (env : Env) (hw : env.windowCreated = true) (hl : env.loaderOk = true) :
    (main env).2.trace =
      startupCalls env.apple ++ infoCalls ++
        setupCalls (env.compiles .GL_VERTEX_SHADER) (env.compiles .GL_FRAGMENT_SHADER) ++
        loopCalls ⟨1, 1, 2, 3⟩ env.polls false [] ++
        (if loopEnds env.polls false [] then [.glfwTerminate] else []) ∧
    (main env).1 = (if loopEnds env.polls false [] then some 0 else none) ∧
    (main env).2.out = entryOut env ∧
    (main env).2.drawStates =
      (render_loop (loop_entry env).1 env.polls (loop_entry env).2).2.drawStates ∧
    (main env).2.gl = (render_loop (loop_entry env).1 env.polls (loop_entry env).2).2.gl := by
  have hcalls := render_loop_calls (loop_entry env).1 env.polls (loop_entry env).2
    (by rw [loop_entry_eq env hw])
  obtain ⟨c1, c2, _, c4⟩ := hcalls
  have hle := loop_entry_eq env hw
  have t1 : (loop_entry env).2.trace = startupCalls env.apple ++ infoCalls ++
      setupCalls (env.compiles .GL_VERTEX_SHADER) (env.compiles .GL_FRAGMENT_SHADER) := by
    rw [hle]
  have t2 : (loop_entry env).1 = ⟨1, 1, 2, 3⟩ := by rw [hle]
  have t3 : (loop_entry env).2.win.shouldClose = false := by rw [hle]
  have t4 : (loop_entry env).2.win.pressed = [] := by rw [hle]
  have t5 : (loop_entry env).2.out = entryOut env := by rw [hle]
  rw [main_ok env hw hl]
  rw [t3, t4] at c1 c2
  rw [t1] at c1
  rw [t5] at c4
  generalize render_loop (loop_entry env).1 env.polls (loop_entry env).2 = R at c1 c2 c4 ⊢
  rw [t2] at c1
  cases he : loopEnds env.polls false [] with
  | true =>
    rw [he] at c2
    simp [c2, glfwTerminate, World.call, c1, c4]
  | false =>
    rw [he] at c2
    simp [c2, c1, c4]

/-- The OpenGL calls of the loop are the six drawing commands and the `glViewport` of the
resize callback. -/
theorem loopCalls_gl (h : Handles) (polls : List (List Event)) (close : Bool)
    (pressed : List Nat) :
    ∀ c ∈ loopCalls h polls close pressed, c.isGL = true →
      c ∈ frameCalls h ∨ ∃ W H : Nat, c = Call.glViewport 0 0 W H := by
  induction polls generalizing close pressed with
  | nil => simp [loopCalls, Call.isGL]
  | cons events rest ih =>
    unfold loopCalls
    cases close with
    | true => simp [Call.isGL]
    | false =>
      simp only [Bool.false_eq_true, if_false]
      intro c hc hgl
      rcases List.mem_cons.mp hc with rfl | hc
      · simp [Call.isGL] at hgl
      · rcases List.mem_append.mp hc with hc | hc
        · have hres : ∀ (es : List Event), ∀ x ∈ resizeCalls es,
              ∃ W H : Nat, x = Call.glViewport 0 0 W H := by
            intro es
            induction es with
            | nil => simp [resizeCalls]
            | cons e es ihe =>
              cases e with
              | key k a => simpa only [resizeCalls] using ihe
              | closeRequested => simpa only [resizeCalls] using ihe
              | framebufferSize W H =>
                intro x hx
                simp only [resizeCalls, List.mem_cons] at hx
                rcases hx with rfl | hx
                · exact ⟨W, H, rfl⟩
                · exact ihe x hx
          simp only [bodyCalls, List.mem_append] at hc
          rcases hc with ((hc | hc) | hc) | hc
          · unfold keyCalls at hc
            split at hc <;> simp at hc <;> rcases hc with rfl | rfl <;> simp [Call.isGL] at hgl
          · exact Or.inl hc
          · simp at hc
            rcases hc with rfl | rfl <;> simp [Call.isGL] at hgl
          · exact Or.inr (hres events c hc)
        · exact ih _ _ c hc hgl

/-- With the close flag set the loop ends at its next test, without a further iteration. -/
theorem render_loop_closed (h : Handles) (rest : List (List Event)) (w : World)
    (hc : w.win.shouldClose = true) :
    render_loop h rest w = (true, w.call .glfwWindowShouldClose) ∧
    loop_iterations h rest w = 0 := by
  cases rest <;> simp [render_loop, loop_iterations, glfwWindowShouldClose, hc]

/-- The number of draw calls of `main` is the number of iterations of its loop. -/
theorem main_draw_count (env : Env) (hw : env.windowCreated = true)
    (hl : env.loaderOk = true) :
    (main env).2.trace.countP Call.isDraw = loopCount env.polls false [] := by
  rw [(main_trace env hw hl).1]
  simp only [List.countP_append, loopCalls_draws]
  have := entry_trace_draws env.apple (env.compiles .GL_VERTEX_SHADER)
    (env.compiles .GL_FRAGMENT_SHADER)
  simp only [List.countP_append] at this
  split <;> simp [this, Call.isDraw, List.countP_cons]

/-- The bind calls issued before the loop. -/
theorem entry_trace_binds (apple cv cf : Bool) :
    (startupCalls apple ++ infoCalls ++ setupCalls cv cf).filter Call.binds =
      [.glBindVertexArray 1, .glBindBuffer .GL_ARRAY_BUFFER 1,
       .glBindBuffer .GL_ELEMENT_ARRAY_BUFFER 2, .glBindVertexArray 0] ∧
    (startupCalls apple ++ infoCalls ++ setupCalls cv cf).filter Call.bindsBuffer =
      [.glBindBuffer .GL_ARRAY_BUFFER 1, .glBindBuffer .GL_ELEMENT_ARRAY_BUFFER 2] := by
  cases apple <;> cases cv <;> cases cf <;> decide

/-- The loop binds no buffer. -/
theorem inLoop_binds (c : Call) (h : c.inLoop = true) :
    c.bindsBuffer = false := by
  cases c <;> simp [Call.inLoop] at h <;> simp [Call.bindsBuffer]

/-- Every call of the loop is one of those listed by `Call.inLoop`. -/
theorem loopCalls_inLoop (h : Handles) (polls : List (List Event)) (close : Bool)
    (pressed : List Nat) : ∀ c ∈ loopCalls h polls close pressed, c.inLoop = true := by
  induction polls generalizing close pressed with
  | nil => simp [loopCalls, Call.inLoop]
  | cons events rest ih =>
    unfold loopCalls
    cases close with
    | true => simp [Call.inLoop]
    | false =>
      simp only [Bool.false_eq_true, if_false]
      intro c hc
      rcases List.mem_cons.mp hc with rfl | hc
      · rfl
      · rcases List.mem_append.mp hc with hc | hc
        · have hres : ∀ (es : List Event), ∀ x ∈ resizeCalls es, x.inLoop = true := by
            intro es
            induction es with
            | nil => simp [resizeCalls]
            | cons e es ihe =>
              cases e <;> simp [resizeCalls, Call.inLoop] <;> exact ihe
          simp only [bodyCalls, List.mem_append] at hc
          rcases hc with ((hc | hc) | hc) | hc
          · unfold keyCalls at hc
            split at hc <;> simp at hc <;> rcases hc with rfl | rfl <;> rfl
          · simp [frameCalls] at hc
            rcases hc with rfl | rfl | rfl | rfl | rfl | rfl <;> rfl
          · simp at hc
            rcases hc with rfl | rfl <;> rfl
          · exact hres events c hc
        · exact ih _ _ c hc

/-- The calls of the loop build no object and read no info log. -/
theorem inLoop_gl (c : Call) (h : c.inLoop = true) :
    c.buildsObject = false ∧ c.isInfoLog = false := by
  cases c <;> simp [Call.inLoop] at h <;> simp [Call.buildsObject, Call.isInfoLog]

/-- An OpenGL call of a trace that starts with the start-up calls comes after them. -/
theorem entry_calls_gl_free (env : Env) (c : Call)
    (pre post : List Call) (t : List Call)
    (ht : startupCalls env.apple ++ t = pre ++ c :: post) (hc : c.isGL = true) :
    Call.glfwCreateWindow SCR_WIDTH SCR_HEIGHT "Hekla - OpenGL Window" ∈ pre ∧
    Call.glfwMakeContextCurrent ∈ pre ∧
    Call.gladLoadGLLoader ∈ pre := by
  obtain ⟨s, hs⟩ := split_after Call.isGL _ _ _ _ _ (startupCalls_not_gl env.apple) hc ht
  rw [hs]
  cases env.apple <;> simp [startupCalls, SCR_WIDTH, SCR_HEIGHT]

/-! ## The claims -/

/-- C1: `main` returns -1 when window creation fails, -1 when the window is created and the
loader fails, and 0 in every other execution that terminates, which it does with the close flag
set; no other exit code is returned, and an execution that receives a close request
terminates. -/
theorem main_exit_code (env : Env) :
    (env.windowCreated = false → (main env).1 = some (-1)) ∧
    (env.windowCreated = true → env.loaderOk = false → (main env).1 = some (-1)) ∧
    (env.windowCreated = true → env.loaderOk = true →
      ((main env).1 = some 0 ∨ (main env).1 = none) ∧
      ((main env).1 = some 0 → (main env).2.win.shouldClose = true) ∧
      ((∃ events ∈ env.polls, closeRequested events = true) → (main env).1 = some 0)) ∧
    (∀ code, (main env).1 = some code → code = -1 ∨ code = 0) := by
  have ok : env.windowCreated = true → env.loaderOk = true →
      ((main env).1 = some 0 ∨ (main env).1 = none) ∧
      ((main env).1 = some 0 → (main env).2.win.shouldClose = true) ∧
      ((∃ events ∈ env.polls, closeRequested events = true) → (main env).1 = some 0) := by
    intro hw hl
    have hflag := render_loop_flag (loop_entry env).1 env.polls (loop_entry env).2
    have hcalls := render_loop_calls (loop_entry env).1 env.polls (loop_entry env).2
      (by rw [loop_entry_eq env hw])
    rw [main_ok env hw hl]
    cases hr : (render_loop (loop_entry env).1 env.polls (loop_entry env).2).1 with
    | true =>
      rw [hr] at hflag
      simp [glfwTerminate, World.call, hflag]
    | false =>
      refine ⟨by simp, by simp, ?_⟩
      intro hclose
      have := loopEnds_of_close env.polls (loop_entry env).2.win.shouldClose
        (loop_entry env).2.win.pressed hclose
      rw [← hcalls.2.1, hr] at this
      exact absurd this (by simp)
  refine ⟨?_, ?_, ok, ?_⟩
  · intro hw
    rw [main_no_window env hw]
  · intro hw hl
    rw [main_no_loader env hw hl]
  · intro code hcode
    cases hw : env.windowCreated with
    | false =>
      rw [main_no_window env hw] at hcode
      left
      simpa using hcode.symm
    | true =>
      cases hl : env.loaderOk with
      | false =>
        rw [main_no_loader env hw hl] at hcode
        left
        simpa using hcode.symm
      | true =>
        rcases (ok hw hl).1 with h0 | h0
        · rw [h0] at hcode
          right
          simpa using hcode.symm
        · rw [h0] at hcode
          exact absurd hcode (by simp)

/-- Witness of C1: the three kinds of execution, on sample environments. -/
theorem main_exit_code_witness :
    (main envNoWindow).1 = some (-1) ∧ (main envNoLoader).1 = some (-1) ∧
    (main envClose).1 = some 0 ∧ (main envClose).2.win.shouldClose = true :=
  ⟨(main_exit_code envNoWindow).1 rfl,
   (main_exit_code envNoLoader).2.1 rfl rfl,
   ((main_exit_code envClose).2.2.1 rfl rfl).2.2 ⟨[.closeRequested], by decide, by decide⟩,
   ((main_exit_code envClose).2.2.1 rfl rfl).2.1
     (((main_exit_code envClose).2.2.1 rfl rfl).2.2 ⟨[.closeRequested], by decide, by decide⟩)⟩

/-- C2: in every execution of `main`, an OpenGL call is issued only after `glfwCreateWindow`
has returned a window, its context has been made current and `gladLoadGLLoader` has returned
success, the three calls preceding it in the trace; an execution in which window creation or
the loader fails issues no OpenGL call. -/
theorem gl_calls_after_loader (env : Env) :
    (∀ pre c post, (main env).2.trace = pre ++ c :: post → c.isGL = true →
      env.windowCreated = true ∧ env.loaderOk = true ∧
      Call.glfwCreateWindow SCR_WIDTH SCR_HEIGHT "Hekla - OpenGL Window" ∈ pre ∧
      Call.glfwMakeContextCurrent ∈ pre ∧
      Call.gladLoadGLLoader ∈ pre) ∧
    ((env.windowCreated = false ∨ env.loaderOk = false) →
      ∀ c ∈ (main env).2.trace, c.isGL = false) := by
  have none_w : env.windowCreated = false → ∀ c ∈ (main env).2.trace, c.isGL = false := by
    intro hw c hc
    rw [main_no_window env hw] at hc
    cases ha : env.apple <;> simp [ha] at hc <;>
      rcases hc with rfl | rfl | rfl | rfl | rfl | rfl | rfl <;> rfl
  have none_l : env.windowCreated = true → env.loaderOk = false →
      ∀ c ∈ (main env).2.trace, c.isGL = false := by
    intro hw hl c hc
    rw [main_no_loader env hw hl] at hc
    exact startupCalls_not_gl env.apple c hc
  constructor
  · intro pre c post ht hc
    have hmem : c ∈ (main env).2.trace := by rw [ht]; simp
    cases hw : env.windowCreated with
    | false =>
      have := none_w hw c hmem
      rw [hc] at this
      exact absurd this (by simp)
    | true =>
      cases hl : env.loaderOk with
      | false =>
        have := none_l hw hl c hmem
        rw [hc] at this
        exact absurd this (by simp)
      | true =>
        refine ⟨rfl, rfl, ?_⟩
        have hcalls := (render_loop_calls (loop_entry env).1 env.polls (loop_entry env).2
          (by rw [loop_entry_eq env hw])).1
        rw [main_ok env hw hl] at ht
        split at ht
        · simp only [glfwTerminate, World.call] at ht
          rw [hcalls, loop_entry_eq env hw] at ht
          simp only [List.append_assoc] at ht
          exact entry_calls_gl_free env c pre post _ ht hc
        · rw [hcalls, loop_entry_eq env hw] at ht
          simp only [List.append_assoc] at ht
          exact entry_calls_gl_free env c pre post _ ht hc
  · rintro (hw | hl)
    · exact none_w hw
    · cases hw : env.windowCreated with
      | false => exact none_w hw
      | true => exact none_l hw hl

/-- Witness of C2: the first OpenGL call of a successful execution, `glGetString(GL_VERSION)`,
comes after the nine GLFW and glad calls of the start-up. -/
theorem gl_calls_after_loader_witness :
    Call.glfwCreateWindow SCR_WIDTH SCR_HEIGHT "Hekla - OpenGL Window" ∈ startupCalls false ∧
    Call.gladLoadGLLoader ∈ startupCalls false ∧
    ∀ c ∈ (main envNoLoader).2.trace, c.isGL = false :=
  ⟨((gl_calls_after_loader env0).1 (startupCalls false) (.glGetString .GL_VERSION)
      ((main env0).2.trace.drop 9) (by decide) rfl).2.2.1,
   ((gl_calls_after_loader env0).1 (startupCalls false) (.glGetString .GL_VERSION)
      ((main env0).2.trace.drop 9) (by decide) rfl).2.2.2.2,
   (gl_calls_after_loader envNoLoader).2 (Or.inr rfl)⟩

/-- C3 (evaluation at the failing input): when the window is created and the loader fails,
`main` returns -1 without having called `glfwTerminate`, and the window is still there; when
window creation fails, `glfwTerminate` is the last call before -1 is returned. -/
theorem loader_failure_skips_terminate :
    (main envNoLoader).1 = some (-1) ∧
    Call.glfwTerminate ∉ (main envNoLoader).2.trace ∧
    (main envNoLoader).2.win.created = true ∧
    (main envNoWindow).1 = some (-1) ∧
    (main envNoWindow).2.trace.getLast? = some Call.glfwTerminate := by
  decide

/-- C4: `process_input` sets the close flag when `glfwGetKey` reports escape pressed, leaves it
as it was otherwise, never clears it, and changes nothing else of the window, the context, the
log or the recorded draws. -/
theorem process_input_close_flag (w : World) :
    ((glfwGetKey GLFW_KEY_ESCAPE w).1 = Action.GLFW_PRESS →
        (process_input w).win.shouldClose = true) ∧
    ((glfwGetKey GLFW_KEY_ESCAPE w).1 ≠ Action.GLFW_PRESS →
        (process_input w).win.shouldClose = w.win.shouldClose) ∧
    (w.win.shouldClose = true → (process_input w).win.shouldClose = true) ∧
    { (process_input w).win with shouldClose := w.win.shouldClose } = w.win ∧
    (process_input w).gl = w.gl ∧
    (process_input w).out = w.out ∧
    (process_input w).drawStates = w.drawStates := by
  unfold process_input
  by_cases h : GLFW_KEY_ESCAPE ∈ w.win.pressed
  · simp [glfwGetKey, glfwSetWindowShouldClose, World.call, h]
  · simp [glfwGetKey, glfwSetWindowShouldClose, World.call, h]

/-- Witness of C4: with escape held down the close flag is set; with only another key held
down a clear flag stays clear. -/
theorem process_input_close_flag_witness :
    (process_input wEscape).win.shouldClose = true ∧
    (process_input { wEscape with win := { wEscape.win with pressed := [65] } }).win.shouldClose
      = false :=
  ⟨(process_input_close_flag wEscape).1 (by decide),
   (process_input_close_flag
      { wEscape with win := { wEscape.win with pressed := [65] } }).2.1 (by decide)⟩

/-- C5: for a resize notification `(W, H)`, `framebuffer_size_callback` issues exactly
`glViewport(0, 0, W, H)`, after which the viewport is `(0, 0, W, H)` and nothing else of the
context (buffers, vertex arrays, shaders, programs, bindings), of the window (its close flag
included), of the log or of the recorded draws has changed; once the callback is registered,
GLFW runs it for every framebuffer resize event. -/
theorem framebuffer_size_callback_viewport (W H : Nat) (w : World) :
    (framebuffer_size_callback W H w).trace = w.trace ++ [Call.glViewport 0 0 W H] ∧
    (framebuffer_size_callback W H w).gl.viewport = ⟨0, 0, W, H⟩ ∧
    (framebuffer_size_callback W H w).gl = { w.gl with viewport := ⟨0, 0, W, H⟩ } ∧
    (framebuffer_size_callback W H w).gl.buffers = w.gl.buffers ∧
    (framebuffer_size_callback W H w).gl.vaos = w.gl.vaos ∧
    (framebuffer_size_callback W H w).gl.programs = w.gl.programs ∧
    (framebuffer_size_callback W H w).win = w.win ∧
    (framebuffer_size_callback W H w).win.shouldClose = w.win.shouldClose ∧
    (framebuffer_size_callback W H w).out = w.out ∧
    (framebuffer_size_callback W H w).drawStates = w.drawStates ∧
    deliver (glfwSetFramebufferSizeCallback w) (.framebufferSize W H) =
      framebuffer_size_callback W H (glfwSetFramebufferSizeCallback w) := by
  simp [framebuffer_size_callback, glViewport, World.command, glViewport_nat, deliver,
    glfwSetFramebufferSizeCallback, World.call]

/-- C6: at every head of the render loop the iteration issues, after its input poll, the same
six drawing commands (clear colour `(0.2, 0.3, 0.3, 1.0)`, clear of the colour buffer, use of
the program, bind of the vertex array, one `glDrawElements(GL_TRIANGLES, 6, GL_UNSIGNED_INT, 0)`,
unbind), then the swap and the event poll, during which the resize callback runs for the
resize events delivered; after `n` iterations exactly `n` draw calls have been issued; the
frame holds the clear colour and one draw of the two triangles `0 1 3` and `1 2 3`; and
running the body twice in succession, with no resize in between, issues the same six OpenGL
commands both times, leaves the same context state as running it once and presents two
identical frames. -/
theorem render_loop_frame (env : Env) (hw : env.windowCreated = true)
    (hl : env.loaderOk = true) (polls : List (List Event)) (e1 e2 : List Event)
    (h1 : noResize e1 = true) (h2 : noResize e2 = true) :
    (∀ events,
      issued (loop_head env polls)
          (loop_body (loop_entry env).1 events (loop_head env polls)) =
        keyCalls (loop_head env polls).win.pressed ++
        [.glClearColor ⟨2⟩ ⟨3⟩ ⟨3⟩ ⟨10⟩,
         .glClear .GL_COLOR_BUFFER_BIT,
         .glUseProgram (loop_entry env).1.shaderProgram,
         .glBindVertexArray (loop_entry env).1.VAO,
         .glDrawElements .GL_TRIANGLES 6 .GL_UNSIGNED_INT 0,
         .glBindVertexArray 0] ++
        [.glfwSwapBuffers, .glfwPollEvents] ++ resizeCalls events) ∧
    (loop_head env polls).trace.countP Call.isDraw = polls.length ∧
    (main env).2.trace.countP Call.isDraw =
      loop_iterations (loop_entry env).1 env.polls (loop_entry env).2 ∧
    (loop_body (loop_entry env).1 e1 (loop_head env polls)).gl.backBuffer =
      ⟨some ⟨⟨2⟩, ⟨3⟩, ⟨3⟩, ⟨10⟩⟩,
       [⟨(loop_body (loop_entry env).1 e1 (loop_head env polls)).gl.program,
         (loop_entry env).1.VAO, (loop_head env polls).gl.viewport, .GL_TRIANGLES,
         [0, 1, 3, 1, 2, 3]⟩]⟩ ∧
    (issued (loop_head env polls)
        (loop_body (loop_entry env).1 e1 (loop_head env polls))).filter Call.isGL =
      frameCalls (loop_entry env).1 ∧
    (issued (loop_body (loop_entry env).1 e1 (loop_head env polls))
        (loop_body (loop_entry env).1 e2
          (loop_body (loop_entry env).1 e1 (loop_head env polls)))).filter Call.isGL =
      frameCalls (loop_entry env).1 ∧
    (loop_body (loop_entry env).1 e2
        (loop_body (loop_entry env).1 e1 (loop_head env polls))).gl =
      (loop_body (loop_entry env).1 e1 (loop_head env polls)).gl ∧
    (loop_body (loop_entry env).1 e2
        (loop_body (loop_entry env).1 e1 (loop_head env polls))).win.presented =
      (loop_head env polls).win.presented ++
        [(loop_body (loop_entry env).1 e1 (loop_head env polls)).gl.backBuffer,
         (loop_body (loop_entry env).1 e1 (loop_head env polls)).gl.backBuffer] := by
  have hinv := loop_head_inv env hw polls
  have hcb := hinv.callback
  have hinv1 := loop_body_inv _ _ e1 _ hinv
  have hcb1 := hinv1.callback
  have htwice := loop_body_twice _ _ _ e1 e2 hinv h1 h2
  have hissued : ∀ (w : World) (events : List Event), w.win.resizeCallback = true →
      issued w (loop_body (loop_entry env).1 events w) =
        keyCalls w.win.pressed ++ frameCalls (loop_entry env).1 ++
          [.glfwSwapBuffers, .glfwPollEvents] ++ resizeCalls events := by
    intro w events hc
    simp [issued, loop_body_eq, hc, inputCalls, keyCalls]
  have hkey : ∀ pressed : List Nat, (keyCalls pressed).filter Call.isGL = [] := by
    intro pressed
    unfold keyCalls
    split <;> rfl
  refine ⟨?_, ?_, ?_, ?_, ?_, ?_, htwice.1, htwice.2⟩
  · intro events
    rw [hissued _ _ hcb]
    rfl
  · have := loop_steps_draws (loop_entry env).1 polls (loop_entry env).2
      (by rw [loop_entry_eq env hw])
    have t1 : (loop_entry env).2.trace = startupCalls env.apple ++ infoCalls ++
        setupCalls (env.compiles .GL_VERTEX_SHADER) (env.compiles .GL_FRAGMENT_SHADER) := by
      rw [loop_entry_eq env hw]
    unfold loop_head
    rw [this, t1, entry_trace_draws, Nat.zero_add]
  · rw [main_draw_count env hw hl]
    have hit := (render_loop_calls (loop_entry env).1 env.polls (loop_entry env).2
      (by rw [loop_entry_eq env hw])).2.2.1
    rw [hit, loop_entry_eq env hw]
  · have hobj := hinv.objects
    have hv := congrArg Objects.vaos hobj
    have hb := congrArg Objects.buffers hobj
    rw [loop_entry_eq env hw] at hv hb
    simp only [GLState.objects, entryGL, linkedGL, geometryGL] at hv hb
    have hVAO : (loop_entry env).1.VAO = 1 := by rw [loop_entry_eq env hw]
    rw [loop_body_eq]
    simp [frame_eq _ _ hinv.head, atDraw_eq _ _ hinv.head, GLState.drawRecord,
      GLState.fetchIndices, GLState.boundVAO, GLState.findVAO, GLState.findBuffer, hv, hb,
      hVAO, indices, sizeof_uint]
  · rw [hissued _ _ hcb]
    simp only [List.filter_append, hkey, noResize_calls _ h1]
    rfl
  · rw [hissued _ _ hcb1]
    simp only [List.filter_append, hkey, noResize_calls _ h2]
    rfl

/-- Witness of C6: the first two frames of a successful execution. -/
theorem render_loop_frame_witness :
    (loop_head env0 [[]]).trace.countP Call.isDraw = 1 ∧
    (loop_body (loop_entry env0).1 []
        (loop_body (loop_entry env0).1 [] (loop_head env0 [[]]))).gl =
      (loop_body (loop_entry env0).1 [] (loop_head env0 [[]])).gl :=
  ⟨(render_loop_frame env0 rfl rfl [[]] [] [] rfl rfl).2.1,
   (render_loop_frame env0 rfl rfl [[]] [] [] rfl rfl).2.2.2.2.2.2.1⟩

/-- C7 (counterexample): in `main env0` the second iteration of the render loop is entered with
the close flag clear, its input poll observes escape pressed and requests the close, and the
same iteration still issues `glClear`, `glDrawElements` and `glfwSwapBuffers`. -/
theorem escape_iteration_renders :
    (glfwWindowShouldClose
      (loop_head env0 [[.framebufferSize 640 480, .key GLFW_KEY_ESCAPE .GLFW_PRESS]])).1
      = false ∧
    (glfwGetKey GLFW_KEY_ESCAPE wSecond).1 = Action.GLFW_PRESS ∧
    issued wSecond (loop_body (loop_entry env0).1 [] wSecond) =
      [.glfwGetKey GLFW_KEY_ESCAPE,
       .glfwSetWindowShouldClose true,
       .glClearColor ⟨2⟩ ⟨3⟩ ⟨3⟩ ⟨10⟩,
       .glClear .GL_COLOR_BUFFER_BIT,
       .glUseProgram 3,
       .glBindVertexArray 1,
       .glDrawElements .GL_TRIANGLES 6 .GL_UNSIGNED_INT 0,
       .glBindVertexArray 0,
       .glfwSwapBuffers,
       .glfwPollEvents] ∧
    (main env0).2.trace =
      (loop_body (loop_entry env0).1 [] wSecond).trace ++
        [.glfwWindowShouldClose, .glfwTerminate] := by
  decide

/-- C7 (amended): the close flag is the state of the loop (clear: Running, set: Closing); an
iteration sets it exactly when it was set, escape is observed or a close request arrives. An
iteration whose input poll observes escape pressed requests the window close, still issues
the six drawing commands, the swap and the event poll, and is the last one: the next loop test
ends the loop. -/
theorem escape_iteration_closes (h : Handles) (events : List Event) (w : World)
    (hesc : (glfwGetKey GLFW_KEY_ESCAPE w).1 = Action.GLFW_PRESS) :
    (∀ (ev : List Event) (v : World),
      (loop_body h ev v).win.shouldClose =
        (v.win.shouldClose || decide (GLFW_KEY_ESCAPE ∈ v.win.pressed) || closeRequested ev)) ∧
    (process_input w).win.shouldClose = true ∧
    issued w (loop_body h events w) =
      [.glfwGetKey GLFW_KEY_ESCAPE, .glfwSetWindowShouldClose true] ++ frameCalls h ++
        [.glfwSwapBuffers, .glfwPollEvents] ++
        (if w.win.resizeCallback then resizeCalls events else []) ∧
    (loop_body h events w).win.shouldClose = true ∧
    (∀ rest,
      (render_loop h rest (loop_body h events w)).1 = true ∧
      loop_iterations h rest (loop_body h events w) = 0 ∧
      issued (loop_body h events w) (render_loop h rest (loop_body h events w)).2 =
        [.glfwWindowShouldClose]) := by
  have hp : GLFW_KEY_ESCAPE ∈ w.win.pressed := by
    by_contra hn
    simp [glfwGetKey, hn] at hesc
  have hclose : (loop_body h events w).win.shouldClose = true := by
    simp [loop_body_eq, hp]
  refine ⟨?_, ?_, ?_, hclose, ?_⟩
  · intro ev v
    simp [loop_body_eq]
  · simp [process_input_eq, hp]
  · simp [issued, loop_body_eq, inputCalls, hp]
  · intro rest
    obtain ⟨r1, r2⟩ := render_loop_closed h rest _ hclose
    rw [r1]
    exact ⟨rfl, r2, by simp [issued, World.call]⟩

/-- Witness of C7 (amended): the second iteration of `main env0`. -/
theorem escape_iteration_closes_witness :
    (loop_body (loop_entry env0).1 [] wSecond).win.shouldClose = true ∧
    loop_iterations (loop_entry env0).1 [[], []]
      (loop_body (loop_entry env0).1 [] wSecond) = 0 :=
  ⟨(escape_iteration_closes (loop_entry env0).1 [] wSecond (by decide)).2.2.2.1,
   ((escape_iteration_closes (loop_entry env0).1 [] wSecond (by decide)).2.2.2.2
      [[], []]).2.1⟩

/-- C8: in an execution that reaches the render loop, the object-building calls are exactly
those of `buildCalls` (one `glGenVertexArrays`, one `glGenBuffers` and one `glBufferData` per
buffer, one `glCreateProgram`, one `glVertexAttribPointer`, ...), all of them issued before
the loop is entered; every call issued from then on builds no object, and if it is an OpenGL
call it is one of the six drawing commands or the `glViewport` of the resize callback; the
objects of the context are the same at every loop head and at the end as when the loop was
entered: one vertex array, two buffers, one program. -/
theorem objects_built_before_loop (env : Env) (hw : env.windowCreated = true)
    (hl : env.loaderOk = true) :
    (loop_entry env).2.trace.filter Call.buildsObject = buildCalls ∧
    (main env).2.trace.filter Call.buildsObject = buildCalls ∧
    (main env).2.trace = (loop_entry env).2.trace ++ issued (loop_entry env).2 (main env).2 ∧
    (∀ c ∈ issued (loop_entry env).2 (main env).2,
      c.buildsObject = false ∧
      (c.isGL = true →
        c ∈ frameCalls (loop_entry env).1 ∨ ∃ W H : Nat, c = Call.glViewport 0 0 W H)) ∧
    (main env).2.gl.objects = (loop_entry env).2.gl.objects ∧
    (∀ polls, (loop_head env polls).gl.objects = (loop_entry env).2.gl.objects) ∧
    (loop_entry env).2.gl.vaos.map VertexArray.name = [(loop_entry env).1.VAO] ∧
    (loop_entry env).2.gl.buffers.map Buffer.name =
      [(loop_entry env).1.VBO, (loop_entry env).1.EBO] ∧
    (loop_entry env).2.gl.programs.map Program.name = [(loop_entry env).1.shaderProgram] := by
  obtain ⟨m1, _, _, _, m5⟩ := main_trace env hw hl
  have hle := loop_entry_eq env hw
  have t1 : (loop_entry env).2.trace = startupCalls env.apple ++ infoCalls ++
      setupCalls (env.compiles .GL_VERTEX_SHADER) (env.compiles .GL_FRAGMENT_SHADER) := by
    rw [hle]
  have t2 : (loop_entry env).1 = ⟨1, 1, 2, 3⟩ := by rw [hle]
  have hm : (main env).2.trace = (loop_entry env).2.trace ++
      (loopCalls ⟨1, 1, 2, 3⟩ env.polls false [] ++
        (if loopEnds env.polls false [] then [.glfwTerminate] else [])) := by
    rw [m1, t1]
    simp only [List.append_assoc]
  have hiss : issued (loop_entry env).2 (main env).2 =
      loopCalls ⟨1, 1, 2, 3⟩ env.polls false [] ++
        (if loopEnds env.polls false [] then [.glfwTerminate] else []) := by
    unfold issued
    rw [hm, List.drop_left]
  have hloop : ∀ c ∈ issued (loop_entry env).2 (main env).2,
      c.buildsObject = false ∧
      (c.isGL = true →
        c ∈ frameCalls (loop_entry env).1 ∨ ∃ W H : Nat, c = Call.glViewport 0 0 W H) := by
    intro c hc
    rw [hiss] at hc
    rcases List.mem_append.mp hc with hc | hc
    · refine ⟨(inLoop_gl c (loopCalls_inLoop _ _ _ _ c hc)).1, ?_⟩
      rw [t2]
      exact loopCalls_gl _ _ _ _ c hc
    · split at hc
      · simp only [List.mem_singleton] at hc
        subst hc
        exact ⟨rfl, by simp [Call.isGL]⟩
      · simp at hc
  refine ⟨?_, ?_, ?_, hloop, ?_, ?_, ?_, ?_, ?_⟩
  · rw [t1, entry_trace_builds]
  · rw [hm, List.filter_append, t1, entry_trace_builds, ← hiss]
    have : (issued (loop_entry env).2 (main env).2).filter Call.buildsObject = [] := by
      rw [List.filter_eq_nil_iff]
      intro c hc
      simp [(hloop c hc).1]
    rw [this, List.append_nil]
  · rw [hiss]
    exact hm
  · rw [m5]
    exact (render_loop_inv _ _ env.polls _ (entry_inv env hw)).objects
  · intro polls
    exact (loop_head_inv env hw polls).objects
  · rw [hle]; rfl
  · rw [hle]; rfl
  · rw [hle]; rfl

/-- Witness of C8: a successful execution with two frames. -/
theorem objects_built_before_loop_witness :
    (main env0).2.trace.filter Call.buildsObject = buildCalls ∧
    (main env0).2.gl.objects = (loop_entry env0).2.gl.objects :=
  ⟨(objects_built_before_loop env0 rfl rfl).2.1,
   (objects_built_before_loop env0 rfl rfl).2.2.2.2.1⟩

/-- C9: a shader compile failure changes nothing but the log and the reading of the info log.
Whatever the compile outcome of the two stages, the exit code (and whether `main` terminates)
is that of the execution in which both stages compile, the calls are those of that execution
plus one `glGetShaderInfoLog(shader, 512, ...)` per failed stage, and the log is that of that
execution, which holds no error line, followed by one error line per failed stage carrying the
first 511 characters of the info log of the stage. -/
theorem compile_failure_only_logs (env : Env) (hw : env.windowCreated = true)
    (hl : env.loaderOk = true) :
    (main env).1 = (main env.allCompile).1 ∧
    (main env).2.trace.filter (fun c => !c.isInfoLog) = (main env.allCompile).2.trace ∧
    (main env).2.trace.countP Call.isInfoLog = env.failedStages ∧
    (main env).2.out =
      (main env.allCompile).2.out ++
      (if env.compiles .GL_VERTEX_SHADER then []
       else [⟨.error, "ERROR::SHADER::VERTEX::COMPILATION_FAILED\n\x7b\x7d",
              some (String.mk ((env.infoLog .GL_VERTEX_SHADER).take 511))⟩]) ++
      (if env.compiles .GL_FRAGMENT_SHADER then []
       else [⟨.error, "ERROR::SHADER::FRAGMENT::COMPILATION_FAILED\n\x7b\x7d",
              some (String.mk ((env.infoLog .GL_FRAGMENT_SHADER).take 511))⟩]) ∧
    (∀ l ∈ (main env.allCompile).2.out, l.level = Level.info) := by
  obtain ⟨m1, m2, m3, _, _⟩ := main_trace env hw hl
  obtain ⟨a1, a2, a3, _, _⟩ := main_trace env.allCompile hw hl
  simp only [Env.allCompile] at a1 a2 a3
  have hloop : (loopCalls ⟨1, 1, 2, 3⟩ env.polls false []).filter (fun c => !c.isInfoLog) =
      loopCalls ⟨1, 1, 2, 3⟩ env.polls false [] := by
    rw [List.filter_eq_self]
    intro c hc
    simp [(inLoop_gl c (loopCalls_inLoop _ _ _ _ c hc)).2]
  have hloop0 : (loopCalls ⟨1, 1, 2, 3⟩ env.polls false []).countP Call.isInfoLog = 0 := by
    rw [List.countP_eq_zero]
    intro c hc
    simp [(inLoop_gl c (loopCalls_inLoop _ _ _ _ c hc)).2]
  refine ⟨?_, ?_, ?_, ?_, ?_⟩
  · rw [m2]
    exact a2.symm
  · show _ = (main env.allCompile).2.trace
    rw [m1]
    simp only [Env.allCompile]
    rw [a1]
    simp only [List.filter_append, hloop]
    have := entry_trace_logs env.apple (env.compiles .GL_VERTEX_SHADER)
      (env.compiles .GL_FRAGMENT_SHADER)
    simp only [List.filter_append] at this
    rw [this]
    split <;> rfl
  · rw [m1]
    simp only [List.countP_append, hloop0]
    have := entry_trace_log_count env.apple (env.compiles .GL_VERTEX_SHADER)
      (env.compiles .GL_FRAGMENT_SHADER)
    simp only [List.countP_append] at this
    rw [this]
    unfold Env.failedStages
    split <;> simp [Call.isInfoLog, List.countP_cons]
  · show _ = (main env.allCompile).2.out ++ _ ++ _
    rw [m3]
    simp only [Env.allCompile]
    rw [a3]
    simp [entryOut, stageLog, infoLines]
  · intro l hl'
    simp only [Env.allCompile] at hl'
    rw [a3] at hl'
    simp [entryOut, stageLog, infoLines] at hl'
    rcases hl' with rfl | rfl | rfl | rfl <;> rfl

/-- Witness of C9: both stages fail to compile, the info log being `bad`. -/
theorem compile_failure_only_logs_witness :
    (main envBadShaders).1 = (main envBadShaders.allCompile).1 ∧
    (main envBadShaders).2.trace.countP Call.isInfoLog = 2 :=
  ⟨(compile_failure_only_logs envBadShaders rfl rfl).1,
   (compile_failure_only_logs envBadShaders rfl rfl).2.2.1⟩

/-- C10: every context state in which the render loop issues `glDrawElements` has the vertex
array of the setup bound, whose element array is the index buffer holding `0 1 3 1 2 3` and
whose attribute slot 0 is enabled and reads 3 floats with stride 12 and offset 0 from the
48-byte vertex buffer; the six indices fetched are below 4 and each vertex fetch
`[12 i, 12 i + 12)` lies inside that buffer. There is one such state per draw call. The index
buffer is bound in the setup between the bind and the unbind of the vertex array, no other
`glBindBuffer` touches the element array, and at every loop head the vertex array bound is
0. -/
theorem draw_state_well_formed (env : Env) (hw : env.windowCreated = true)
    (hl : env.loaderOk = true) :
    (∀ g ∈ (main env).2.drawStates,
      g.vertexArray = (loop_entry env).1.VAO ∧
      g.boundVAO = some ⟨(loop_entry env).1.VAO, (loop_entry env).1.EBO,
        [⟨0, 3, .GL_FLOAT, false, 12, 0, (loop_entry env).1.VBO⟩], [0]⟩ ∧
      g.findBuffer (loop_entry env).1.EBO =
        some ⟨(loop_entry env).1.EBO, 24, .uints [0, 1, 3, 1, 2, 3], some .GL_STATIC_DRAW⟩ ∧
      g.findBuffer (loop_entry env).1.VBO =
        some ⟨(loop_entry env).1.VBO, 48, .floats vertices, some .GL_STATIC_DRAW⟩ ∧
      g.fetchIndices 6 0 = [0, 1, 3, 1, 2, 3] ∧
      ∀ i ∈ g.fetchIndices 6 0, i < 4 ∧ 12 * i + 12 ≤ 48) ∧
    (main env).2.drawStates.length = (main env).2.trace.countP Call.isDraw ∧
    (BufferData.floats vertices).byteSize = 48 ∧
    (loop_entry env).2.trace.filter Call.binds =
      [.glBindVertexArray (loop_entry env).1.VAO,
       .glBindBuffer .GL_ARRAY_BUFFER (loop_entry env).1.VBO,
       .glBindBuffer .GL_ELEMENT_ARRAY_BUFFER (loop_entry env).1.EBO,
       .glBindVertexArray 0] ∧
    (main env).2.trace.filter Call.bindsBuffer =
      [.glBindBuffer .GL_ARRAY_BUFFER (loop_entry env).1.VBO,
       .glBindBuffer .GL_ELEMENT_ARRAY_BUFFER (loop_entry env).1.EBO] ∧
    (∀ polls, (loop_head env polls).gl.vertexArray = 0) := by
  obtain ⟨m1, _, _, m4, _⟩ := main_trace env hw hl
  have hle := loop_entry_eq env hw
  have t1 : (loop_entry env).2.trace = startupCalls env.apple ++ infoCalls ++
      setupCalls (env.compiles .GL_VERTEX_SHADER) (env.compiles .GL_FRAGMENT_SHADER) := by
    rw [hle]
  have t2 : (loop_entry env).1 = ⟨1, 1, 2, 3⟩ := by rw [hle]
  have hinv := render_loop_inv _ _ env.polls _ (entry_inv env hw)
  refine ⟨?_, ?_, rfl, ?_, ?_, ?_⟩
  · intro g hg
    rw [m4] at hg
    obtain ⟨hva, hobj⟩ := hinv.draws g hg
    have hv := congrArg Objects.vaos hobj
    have hb := congrArg Objects.buffers hobj
    rw [hle] at hv hb
    simp only [GLState.objects, entryGL, linkedGL, geometryGL] at hv hb
    rw [t2] at hva ⊢
    simp only at hva ⊢
    have hfetch : g.fetchIndices 6 0 = [0, 1, 3, 1, 2, 3] := by
      simp [GLState.fetchIndices, GLState.boundVAO, GLState.findVAO, GLState.findBuffer, hv,
        hb, hva, indices, sizeof_uint]
    refine ⟨hva, ?_, ?_, ?_, hfetch, ?_⟩
    · simp [GLState.boundVAO, GLState.findVAO, hv, hva]
    · simp [GLState.findBuffer, hb, indices]
    · simp [GLState.findBuffer, hb]
    · rw [hfetch]
      intro i hi
      simp only [List.mem_cons, List.mem_singleton, List.not_mem_nil, or_false] at hi
      omega
  · rw [m4, render_loop_drawStates, main_draw_count env hw hl, hle]
    simp
  · rw [t1, t2]
    exact (entry_trace_binds _ _ _).1
  · rw [m1, t2]
    simp only [List.filter_append]
    have := (entry_trace_binds env.apple (env.compiles .GL_VERTEX_SHADER)
      (env.compiles .GL_FRAGMENT_SHADER)).2
    simp only [List.filter_append] at this
    rw [this]
    have hloop : (loopCalls ⟨1, 1, 2, 3⟩ env.polls false []).filter Call.bindsBuffer = [] := by
      rw [List.filter_eq_nil_iff]
      intro c hc
      simp [inLoop_binds c (loopCalls_inLoop _ _ _ _ c hc)]
    rw [hloop]
    split <;> rfl
  · intro polls
    exact (loop_head_inv env hw polls).head.unbound

/-- Witness of C10: the two draws of `main env0`. -/
theorem draw_state_well_formed_witness :
    (main env0).2.drawStates.length = 2 ∧
    ∀ g ∈ (main env0).2.drawStates, g.fetchIndices 6 0 = [0, 1, 3, 1, 2, 3] :=
  ⟨by
     have h := (draw_state_well_formed env0 rfl rfl).2.1
     rw [h]
     decide,
   fun g hg => ((draw_state_well_formed env0 rfl rfl).1 g hg).2.2.2.2.1⟩

end Hekla
